import Mathlib

/-!
# RTBlur: a verification development

A shallow embedding of `RTBlur.cpp` (a Direct3D 11 + ImGui viewer that applies a two-pass
separable Gaussian blur to a loaded image) and theorems about its resource handling and its
recompute controller.

Modelling conventions.

* The process-wide globals of `RTBlur.cpp`, together with the function-local statics of
  `WinMain`, are the fields of `Renderer`; a null pointer (or empty `ComPtr`) is `none`.
* Every function of the program is a state transformer `Op` that returns the new globals and
  the list of API calls it made, in order.  A null-pointer dereference makes the result `none`.
* `float` values are exact rationals; `UINT`, `WPARAM` and `LPARAM` are natural numbers.
* The HRESULT of each fallible Direct3D call is an explicit Boolean argument (`true` = success).
* Every texture the device creates gets a fresh `id` from `Renderer.nextId`; views remember the
  texture they were created on.
-/

namespace RTBlur

/-! ## Direct3D objects -/

/-- A 2-D texture: the identity of the resource and the `Width`/`Height` of its
`D3D11_TEXTURE2D_DESC`. -/
structure Texture2D where
  id : Nat
  Width : Nat
  Height : Nat
  deriving DecidableEq

/-- An `ID3D11RenderTargetView`, with the texture it writes to. -/
structure RenderTargetView where
  resource : Texture2D
  deriving DecidableEq

/-- An `ID3D11ShaderResourceView`, with the texture it reads from. -/
structure ShaderResourceView where
  resource : Texture2D
  deriving DecidableEq

/-- The `D3D11_VIEWPORT` structure. -/
structure D3D11_VIEWPORT where
  TopLeftX : ℚ
  TopLeftY : ℚ
  Width : ℚ
  Height : ℚ
  MinDepth : ℚ
  MaxDepth : ℚ
  deriving DecidableEq

/-- The `BlurSettings` constant-buffer layout (the padding float is never written). -/
structure BlurSettings where
  texelSize : ℚ × ℚ
  blurRadius : ℚ
  deriving DecidableEq

/-- The `FullscreenVertex` structure: clip-space position and texture coordinate. -/
structure FullscreenVertex where
  x : ℚ
  y : ℚ
  u : ℚ
  v : ℚ
  deriving DecidableEq

/-- The compiled shader entry points. -/
inductive Shader
  | VSMain
  | PSMain
  | PSHorizontalBlur
  | PSVerticalBlur
  deriving DecidableEq

/-- The input layout created by `LoadFullscreenShaders` (POSITION at 0, TEXCOORD at 8). -/
inductive InputLayout
  | positionTexcoord
  deriving DecidableEq

/-- The sampler created by `CreateSamplerState` (linear filter, clamp addressing). -/
inductive SamplerState
  | linearClamp
  deriving DecidableEq

/-- The only topology the program sets. -/
inductive Topology
  | TRIANGLELIST
  deriving DecidableEq

/-- The dynamic constant buffer behind `g_blurSettingsBuffer`; `data` is what the last
`Map`/`Unmap` wrote (`none` before the first write). -/
structure SettingsBuffer where
  data : Option BlurSettings
  deriving DecidableEq

/-- The `ID3D11Device`: the index of the adapter it was created on. -/
structure Device where
  adapter : Nat
  deriving DecidableEq

/-- The `IDXGISwapChain`: its buffer 0. -/
structure SwapChain where
  buffer : Texture2D
  deriving DecidableEq

/-- The pipeline bindings held by the immediate `ID3D11DeviceContext` (slot 0 of each stage,
the only slot the program uses).  Direct3D's automatic unbinding on read/write hazards is not
modelled: a binding stays until the program replaces it. -/
structure DeviceContext where
  OMRenderTarget : Option RenderTargetView
  PSShader : Option Shader
  PSSampler : Option SamplerState
  PSConstantBuffer : Bool
  PSShaderResource : Option ShaderResourceView
  VSShader : Option Shader
  IAInputLayout : Option InputLayout
  IAVertexBuffer : Option (List FullscreenVertex)
  IAPrimitiveTopology : Option Topology
  RSViewport : Option D3D11_VIEWPORT
  deriving DecidableEq

/-- A freshly created device context: nothing bound. -/
def DeviceContext.fresh : DeviceContext :=
  { OMRenderTarget := none, PSShader := none, PSSampler := none, PSConstantBuffer := false,
    PSShaderResource := none, VSShader := none, IAInputLayout := none, IAVertexBuffer := none,
    IAPrimitiveTopology := none, RSViewport := none }

/-- What a `Draw` call reads and writes: the bindings at the moment of the call and the contents
of the bound constant buffer. -/
structure DrawState where
  target : Option RenderTargetView
  input : Option ShaderResourceView
  pixelShader : Option Shader
  viewport : Option D3D11_VIEWPORT
  settings : Option BlurSettings
  deriving DecidableEq

/-- The COM pointers of the program, named as in the source, for logging `Release`. -/
inductive Ptr
  | g_pd3dDevice
  | g_pd3dDeviceContext
  | g_pSwapChain
  | g_mainRenderTargetView
  | pBackBuffer
  | g_fullscreenVS
  | g_fullscreenPS
  | g_inputLayout
  | g_fullscreenVB
  | g_linearClampSampler
  | g_blurSettingsBuffer
  | g_blurRenderTargetTexture
  | g_blurRenderTargetView
  | g_blurShaderResourceView
  | g_tempTexture
  | g_tempRTV
  | g_tempSRV
  | g_blurHorizontalPS
  | g_blurVerticalPS
  | g_loadedImageSRV
  deriving DecidableEq

/-- The texts the program sends to `OutputDebugString`. -/
inductive DebugText
  | compilerDiagnostic
  | failedFullscreenVB
  | failedSamplerState
  | failedBlurSettingsBuffer
  | createBufferHresult
  | failedBlurTexture
  | failedBlurRTV
  | blurSRVNull
  | blurSRVCreated
  | failedCompileGaussianBlur
  | failedLoadImage
  deriving DecidableEq

/-- The entries of a log: the API calls the program makes, with the arguments that matter here,
and a marker for each invocation of `ApplyGaussianBlur`. -/
inductive Call
  | Release (p : Ptr)
  | OutputDebugString (t : DebugText)
  | D3D11CreateDeviceAndSwapChain (adapter Width Height : Nat)
  | D3DCompileFromFile (entry : Shader)
  | CreateVertexShader
  | CreatePixelShader (entry : Shader)
  | CreateInputLayout
  | CreateBuffer (p : Ptr)
  | CreateSamplerState
  | GetBuffer
  | ResizeBuffers (Width Height : Nat)
  | CreateTexture2D (Width Height : Nat)
  | CreateRenderTargetView (resource : Option Texture2D)
  | CreateShaderResourceView (resource : Option Texture2D)
  | ClearRenderTargetView (rtv : Option RenderTargetView)
  | OMSetRenderTargets (rtv : Option RenderTargetView)
  | MapWriteUnmap (settings : BlurSettings)
  | PSSetShader (ps : Option Shader)
  | PSSetSamplers (s : Option SamplerState)
  | PSSetConstantBuffers (bound : Bool)
  | PSSetShaderResources (srv : Option ShaderResourceView)
  | VSSetShader (vs : Option Shader)
  | IASetInputLayout (l : Option InputLayout)
  | IASetVertexBuffers (vb : Option (List FullscreenVertex)) (stride offset : Nat)
  | IASetPrimitiveTopology (t : Topology)
  | RSSetViewports (vp : D3D11_VIEWPORT)
  | Draw (VertexCount StartVertexLocation : Nat) (bound : DrawState)
  | ApplyGaussianBlur (inputSRV : Option ShaderResourceView)
      (outputRTV : Option RenderTargetView) (blurRadius : ℚ)
  | ImGuiShutdown
  | ImGuiInit
  | ImGuiNewFrame
  | ImGuiImage (srv : Option ShaderResourceView) (size : ℚ × ℚ)
  | ImGuiRenderDrawData
  | Present (SyncInterval : Nat)
  | PostQuitMessage
  | DefWindowProc
  deriving DecidableEq

/-! ## The globals -/

/-- The globals of `RTBlur.cpp` and the statics of `WinMain`. -/
structure Renderer where
  g_pd3dDevice : Option Device
  g_pd3dDeviceContext : Option DeviceContext
  g_pSwapChain : Option SwapChain
  g_mainRenderTargetView : Option RenderTargetView
  g_blurRadius : ℚ
  g_fullscreenVS : Option Shader
  g_fullscreenPS : Option Shader
  g_inputLayout : Option InputLayout
  g_fullscreenVB : Option (List FullscreenVertex)
  g_linearClampSampler : Option SamplerState
  selectedAdapterIndex : Nat
  adapters : Nat
  sd : Nat × Nat
  g_blurSettingsBuffer : Option SettingsBuffer
  g_blurRenderTargetTexture : Option Texture2D
  g_blurRenderTargetView : Option RenderTargetView
  g_blurShaderResourceView : Option ShaderResourceView
  g_tempTexture : Option Texture2D
  g_tempRTV : Option RenderTargetView
  g_tempSRV : Option ShaderResourceView
  g_blurHorizontalPS : Option Shader
  g_blurVerticalPS : Option Shader
  oldBlurRadius : ℚ
  needsUpdate : Bool
  g_loadedImageSRV : Option ShaderResourceView
  nextId : Nat
  deriving DecidableEq

/-- The globals as the static initialisers leave them, with `n` adapters to be enumerated. -/
def Renderer.initial (n : Nat) : Renderer :=
  { g_pd3dDevice := none, g_pd3dDeviceContext := none, g_pSwapChain := none,
    g_mainRenderTargetView := none, g_blurRadius := 5,
    g_fullscreenVS := none, g_fullscreenPS := none, g_inputLayout := none,
    g_fullscreenVB := none, g_linearClampSampler := none,
    selectedAdapterIndex := 0, adapters := n, sd := (0, 0),
    g_blurSettingsBuffer := none,
    g_blurRenderTargetTexture := none, g_blurRenderTargetView := none,
    g_blurShaderResourceView := none,
    g_tempTexture := none, g_tempRTV := none, g_tempSRV := none,
    g_blurHorizontalPS := none, g_blurVerticalPS := none,
    oldBlurRadius := 0, needsUpdate := false, g_loadedImageSRV := none, nextId := 0 }

/-! ## State transformers -/

/-- A function of the program: new globals and the calls made, or `none` on a crash. -/
abbrev Op := Renderer → Option (Renderer × List Call)

/-- Does nothing. -/
def Op.skip : Op := fun s => some (s, [])

/-- Makes one call that leaves the globals alone. -/
def Op.call (c : Call) : Op := fun s => some (s, [c])

/-- Runs `a`, then `b` on the globals `a` left; the calls are concatenated. -/
def Op.seq (a b : Op) : Op := fun s =>
  match a s with
  | none => none
  | some (s1, l1) =>
    match b s1 with
    | none => none
    | some (s2, l2) => some (s2, l1 ++ l2)

/-- Runs the operations of a list in order. -/
def Op.chain : List Op → Op
  | [] => Op.skip
  | a :: rest => Op.seq a (Op.chain rest)

/-- A call through `g_pd3dDeviceContext`: crashes on a null context, otherwise updates the
bindings with `f` and logs `c`. -/
def Op.ctx (f : DeviceContext → DeviceContext) (c : Call) : Op := fun s =>
  match s.g_pd3dDeviceContext with
  | none => none
  | some d => some ({ s with g_pd3dDeviceContext := some (f d) }, [c])

/-- The `Release` a `ComPtr` does on its old pointer when `&ptr` is taken (nothing when it is
already null). -/
def releaseOld {α : Type} (old : Option α) (p : Ptr) : List Call :=
  match old with
  | some _ => [Call.Release p]
  | none => []

/-! ## Back buffer -/

/-- `CleanupRenderTarget` (lines 269-271): releases the back-buffer view if there is one. -/
def CleanupRenderTarget : Op := fun s =>
  match s.g_mainRenderTargetView with
  | some _ => some ({ s with g_mainRenderTargetView := none }, [Call.Release Ptr.g_mainRenderTargetView])
  | none => some (s, [])

/-- `CreateRenderTarget` (lines 262-267): fetches buffer 0 of the swap chain, creates the
back-buffer view on it and releases the buffer pointer.  `hr` is the result of
`CreateRenderTargetView`; no result is checked. -/
def CreateRenderTarget (hr : Bool) : Op := fun s =>
  match s.g_pSwapChain, s.g_pd3dDevice with
  | some sc, some _ =>
    some ({ s with g_mainRenderTargetView :=
                    if hr then some ⟨sc.buffer⟩ else s.g_mainRenderTargetView },
          [Call.GetBuffer, Call.CreateRenderTargetView (some sc.buffer), Call.Release Ptr.pBackBuffer])
  | _, _ => none

/-! ## Off-screen surfaces -/

/-- The results of the three device calls of one surface creation. -/
structure SurfaceHr where
  texture : Bool
  rtv : Bool
  srv : Bool
  deriving DecidableEq

/-- All three calls succeed. -/
def SurfaceHr.ok : SurfaceHr := { texture := true, rtv := true, srv := true }

/-- The texture `CreateTexture2D` stores: a fresh one on success, null on failure. -/
def newTexture (hr : Bool) (id width height : Nat) : Option Texture2D :=
  if hr then some { id := id, Width := width, Height := height } else none

/-- The view `CreateRenderTargetView` stores: one on the given texture when the call succeeds;
the call fails on a null resource. -/
def newRTV (hr : Bool) (tex : Option Texture2D) : Option RenderTargetView :=
  match tex with
  | some t => if hr then some ⟨t⟩ else none
  | none => none

/-- The view `CreateShaderResourceView` stores, as for `newRTV`. -/
def newSRV (hr : Bool) (tex : Option Texture2D) : Option ShaderResourceView :=
  match tex with
  | some t => if hr then some ⟨t⟩ else none
  | none => none

/-- `CreateBlurRenderTarget` (lines 432-462).  Taking `&g_blurRenderTargetTexture` releases the
texture held so far, then `CreateTexture2D` stores the new one; the two views are created on
whatever `g_blurRenderTargetTexture` then holds, each after releasing the old view.  Failures
are only logged. -/
def CreateBlurRenderTarget (width height : Nat) (hr : SurfaceHr) : Op := fun s =>
  match s.g_pd3dDevice with
  | none => none
  | some _ =>
    let tex := newTexture hr.texture s.nextId width height
    let rtv := newRTV hr.rtv tex
    let srv := newSRV hr.srv tex
    some ({ s with g_blurRenderTargetTexture := tex,
                   g_blurRenderTargetView := rtv,
                   g_blurShaderResourceView := srv,
                   nextId := if hr.texture then s.nextId + 1 else s.nextId },
      releaseOld s.g_blurRenderTargetTexture Ptr.g_blurRenderTargetTexture
        ++ [Call.CreateTexture2D width height]
        ++ (if tex.isSome then [] else [Call.OutputDebugString DebugText.failedBlurTexture])
        ++ releaseOld s.g_blurRenderTargetView Ptr.g_blurRenderTargetView
        ++ [Call.CreateRenderTargetView tex]
        ++ (if rtv.isSome then [] else [Call.OutputDebugString DebugText.failedBlurRTV])
        ++ releaseOld s.g_blurShaderResourceView Ptr.g_blurShaderResourceView
        ++ [Call.CreateShaderResourceView tex]
        ++ [Call.OutputDebugString
              (if srv.isSome then DebugText.blurSRVCreated else DebugText.blurSRVNull)])

/-- `CreateTempRenderTarget` (lines 469-489): as `CreateBlurRenderTarget`, on `g_tempTexture`,
`g_tempRTV` and `g_tempSRV`, with no result checked or logged. -/
def CreateTempRenderTarget (width height : Nat) (hr : SurfaceHr) : Op := fun s =>
  match s.g_pd3dDevice with
  | none => none
  | some _ =>
    let tex := newTexture hr.texture s.nextId width height
    let rtv := newRTV hr.rtv tex
    let srv := newSRV hr.srv tex
    some ({ s with g_tempTexture := tex,
                   g_tempRTV := rtv,
                   g_tempSRV := srv,
                   nextId := if hr.texture then s.nextId + 1 else s.nextId },
      releaseOld s.g_tempTexture Ptr.g_tempTexture
        ++ [Call.CreateTexture2D width height]
        ++ releaseOld s.g_tempRTV Ptr.g_tempRTV
        ++ [Call.CreateRenderTargetView tex]
        ++ releaseOld s.g_tempSRV Ptr.g_tempSRV
        ++ [Call.CreateShaderResourceView tex])

/-! ## Window procedure -/

/-- The window messages `WndProc` distinguishes. -/
inductive Msg
  | WM_SIZE (wParam lParam : Nat)
  | WM_DESTROY
  | other
  deriving DecidableEq

/-- The `SIZE_MINIMIZED` value of `wParam`. -/
def SIZE_MINIMIZED : Nat := 1

/-- The `LOWORD` of an `LPARAM`: its low 16 bits. -/
def LOWORD (l : Nat) : Nat := l % 65536

/-- The `HIWORD` of an `LPARAM`: bits 16 to 31. -/
def HIWORD (l : Nat) : Nat := (l / 65536) % 65536

/-- The `LPARAM` of a `WM_SIZE` message for a client area of `width` x `height`. -/
def MAKELPARAM (width height : Nat) : Nat := height % 65536 * 65536 + width % 65536

/-- The results of the fallible calls of the `WM_SIZE` branch. -/
structure ResizeHr where
  resize : Bool
  mainRTV : Bool
  blur : SurfaceHr
  deriving DecidableEq

/-- Every call of the `WM_SIZE` branch succeeds. -/
def ResizeHr.ok : ResizeHr := { resize := true, mainRTV := true, blur := SurfaceHr.ok }

/-- `IDXGISwapChain::ResizeBuffers(0, Width, Height, DXGI_FORMAT_UNKNOWN, 0)`: on success the
chain's buffer 0 is a new texture of the requested size (the size is taken as passed). -/
def ResizeBuffers (width height : Nat) (hr : Bool) : Op := fun s =>
  match s.g_pSwapChain with
  | none => none
  | some _ =>
    some (if hr then
            { s with g_pSwapChain := some ⟨{ id := s.nextId, Width := width, Height := height }⟩,
                     nextId := s.nextId + 1 }
          else s,
          [Call.ResizeBuffers width height])

/-- The viewport the `WM_SIZE` branch and `ApplyGaussianBlur` build: origin 0, depth 0 to 1. -/
def viewportOf (width height : Nat) : D3D11_VIEWPORT :=
  { TopLeftX := 0, TopLeftY := 0, Width := (width : ℚ), Height := (height : ℚ),
    MinDepth := 0, MaxDepth := 1 }

/-- `ID3D11DeviceContext::RSSetViewports(1, &vp)`. -/
def RSSetViewports (vp : D3D11_VIEWPORT) : Op :=
  Op.ctx (fun d => { d with RSViewport := some vp }) (Call.RSSetViewports vp)

/-- The `WM_SIZE` branch of `WndProc` (lines 802-820). -/
def onSize (wParam lParam : Nat) (hr : ResizeHr) : Op := fun s =>
  if s.g_pd3dDevice.isSome ∧ wParam ≠ SIZE_MINIMIZED then
    Op.chain
      [ CleanupRenderTarget,
        ResizeBuffers (LOWORD lParam) (HIWORD lParam) hr.resize,
        CreateRenderTarget hr.mainRTV,
        CreateBlurRenderTarget (LOWORD lParam) (HIWORD lParam) hr.blur,
        RSSetViewports (viewportOf (LOWORD lParam) (HIWORD lParam)) ] s
  else some (s, [])

/-- `WndProc` (lines 797-826).  `imguiHandled` is the result of
`ImGui_ImplWin32_WndProcHandler`; when it is set the message goes no further. -/
def WndProc (imguiHandled : Bool) (msg : Msg) (hr : ResizeHr) : Op :=
  if imguiHandled then Op.skip
  else
    match msg with
    | Msg.WM_SIZE wParam lParam => onSize wParam lParam hr
    | Msg.WM_DESTROY => Op.call Call.PostQuitMessage
    | Msg.other => Op.call Call.DefWindowProc

/-! ## Pipeline objects -/

/-- The outcome of `D3DCompileFromFile`: success, or failure with or without an error blob. -/
inductive CompileResult
  | ok
  | failed (errorBlob : Bool)
  deriving DecidableEq

/-- What a failed compilation sends to `OutputDebugStringA`: the diagnostic text of the error
blob, when there is one. -/
def diagnosticOf (errorBlob : Bool) : List Call :=
  if errorBlob then [Call.OutputDebugString DebugText.compilerDiagnostic] else []

/-- The results of the calls of `LoadFullscreenShaders`. -/
structure FullscreenHr where
  compileVS : CompileResult
  createVS : Bool
  compilePS : CompileResult
  createPS : Bool
  createLayout : Bool
  deriving DecidableEq

/-- `LoadFullscreenShaders` (lines 150-207): returns early when a compilation fails; the results
of the three `Create...` calls are not checked. -/
def LoadFullscreenShaders (hr : FullscreenHr) : Op := fun s =>
  match hr.compileVS with
  | CompileResult.failed errorBlob =>
    some (s, [Call.D3DCompileFromFile Shader.VSMain] ++ diagnosticOf errorBlob)
  | CompileResult.ok =>
    match s.g_pd3dDevice with
    | none => none
    | some _ =>
      let s1 := { s with g_fullscreenVS := if hr.createVS then some Shader.VSMain else none }
      let l1 := [Call.D3DCompileFromFile Shader.VSMain]
        ++ releaseOld s.g_fullscreenVS Ptr.g_fullscreenVS ++ [Call.CreateVertexShader]
        ++ [Call.D3DCompileFromFile Shader.PSMain]
      match hr.compilePS with
      | CompileResult.failed errorBlob => some (s1, l1 ++ diagnosticOf errorBlob)
      | CompileResult.ok =>
        some ({ s1 with g_fullscreenPS := if hr.createPS then some Shader.PSMain else none,
                        g_inputLayout :=
                          if hr.createLayout then some InputLayout.positionTexcoord else none },
          l1 ++ releaseOld s.g_fullscreenPS Ptr.g_fullscreenPS
            ++ [Call.CreatePixelShader Shader.PSMain]
            ++ releaseOld s.g_inputLayout Ptr.g_inputLayout ++ [Call.CreateInputLayout])

/-- The three vertices `CreateFullscreenTriangle` uploads (lines 221-226). -/
def verts : List FullscreenVertex :=
  [ { x := -1, y := -1, u := 0, v := 1 },
    { x := -1, y := 3, u := 0, v := -1 },
    { x := 3, y := -1, u := 2, v := 1 } ]

/-- `CreateFullscreenTriangle` (lines 217-241). -/
def CreateFullscreenTriangle (hr : Bool) : Op := fun s =>
  match s.g_pd3dDevice with
  | none => none
  | some _ =>
    some ({ s with g_fullscreenVB := if hr then some verts else none },
      releaseOld s.g_fullscreenVB Ptr.g_fullscreenVB ++ [Call.CreateBuffer Ptr.g_fullscreenVB]
        ++ (if hr then [] else [Call.OutputDebugString DebugText.failedFullscreenVB]))

/-- `CreateSamplerState` (lines 245-260). -/
def CreateSamplerState (hr : Bool) : Op := fun s =>
  match s.g_pd3dDevice with
  | none => none
  | some _ =>
    some ({ s with g_linearClampSampler := if hr then some SamplerState.linearClamp else none },
      releaseOld s.g_linearClampSampler Ptr.g_linearClampSampler ++ [Call.CreateSamplerState]
        ++ (if hr then [] else [Call.OutputDebugString DebugText.failedSamplerState]))

/-- The results of the calls of `LoadBlurShader`. -/
structure BlurShaderHr where
  compileH : CompileResult
  createH : Bool
  compileV : CompileResult
  createV : Bool
  deriving DecidableEq

/-- `LoadBlurShader` (lines 495-535): returns early when the horizontal compilation fails; after
a failed vertical compilation it goes on to dereference the null `psVerticalBlob`. -/
def LoadBlurShader (hr : BlurShaderHr) : Op := fun s =>
  match hr.compileH with
  | CompileResult.failed errorBlob =>
    some (s, [Call.D3DCompileFromFile Shader.PSHorizontalBlur] ++ diagnosticOf errorBlob
      ++ [Call.OutputDebugString DebugText.failedCompileGaussianBlur])
  | CompileResult.ok =>
    match s.g_pd3dDevice with
    | none => none
    | some _ =>
      match hr.compileV with
      | CompileResult.failed _ => none
      | CompileResult.ok =>
        some ({ s with
                g_blurHorizontalPS := if hr.createH then some Shader.PSHorizontalBlur else none,
                g_blurVerticalPS := if hr.createV then some Shader.PSVerticalBlur else none },
          [Call.D3DCompileFromFile Shader.PSHorizontalBlur]
            ++ releaseOld s.g_blurHorizontalPS Ptr.g_blurHorizontalPS
            ++ [Call.CreatePixelShader Shader.PSHorizontalBlur]
            ++ [Call.D3DCompileFromFile Shader.PSVerticalBlur]
            ++ releaseOld s.g_blurVerticalPS Ptr.g_blurVerticalPS
            ++ [Call.CreatePixelShader Shader.PSVerticalBlur])

/-- `CreateBlurSettingsBuffer` (lines 394-410): creates the constant buffer, logs a failure, and
then creates it a second time into the same `ComPtr`. -/
def CreateBlurSettingsBuffer (hr1 hr2 : Bool) : Op := fun s =>
  match s.g_pd3dDevice with
  | none => none
  | some _ =>
    some ({ s with g_blurSettingsBuffer := if hr2 then some ⟨none⟩ else none },
      releaseOld s.g_blurSettingsBuffer Ptr.g_blurSettingsBuffer
        ++ [Call.CreateBuffer Ptr.g_blurSettingsBuffer]
        ++ (if hr1 then []
            else [Call.OutputDebugString DebugText.failedBlurSettingsBuffer,
                  Call.OutputDebugString DebugText.createBufferHresult])
        ++ (if hr1 then [Call.Release Ptr.g_blurSettingsBuffer] else [])
        ++ [Call.CreateBuffer Ptr.g_blurSettingsBuffer])

/-! ## Device -/

/-- The results of the calls of `InitD3D`. -/
structure InitHr where
  device : Bool
  fullscreen : FullscreenHr
  vb : Bool
  sampler : Bool
  blurShader : BlurShaderHr
  mainRTV : Bool
  blur : SurfaceHr
  cb1 : Bool
  cb2 : Bool
  deriving DecidableEq

/-- Every call of `InitD3D` succeeds. -/
def InitHr.ok : InitHr :=
  { device := true,
    fullscreen := { compileVS := CompileResult.ok, createVS := true,
                    compilePS := CompileResult.ok, createPS := true, createLayout := true },
    vb := true, sampler := true,
    blurShader := { compileH := CompileResult.ok, createH := true,
                    compileV := CompileResult.ok, createV := true },
    mainRTV := true, blur := SurfaceHr.ok, cb1 := true, cb2 := true }

/-- The `D3D11CreateDeviceAndSwapChain` call of `InitD3D` (lines 308-318): fills `sd` with
1280 x 720 and creates device, context and swap chain on `adapters[selectedAdapterIndex]`
(indexing past the end of `adapters` is a crash).  The result is not checked. -/
def createDeviceAndSwapChain (hr : Bool) : Op := fun s =>
  if s.selectedAdapterIndex < s.adapters then
    some (if hr then
            { s with sd := (1280, 720),
                     g_pSwapChain := some ⟨{ id := s.nextId, Width := 1280, Height := 720 }⟩,
                     g_pd3dDevice := some ⟨s.selectedAdapterIndex⟩,
                     g_pd3dDeviceContext := some DeviceContext.fresh,
                     nextId := s.nextId + 1 }
          else { s with sd := (1280, 720) },
          [Call.D3D11CreateDeviceAndSwapChain s.selectedAdapterIndex 1280 720])
  else none

/-- `InitD3D` (lines 306-332). -/
def InitD3D (hr : InitHr) : Op :=
  Op.chain
    [ createDeviceAndSwapChain hr.device,
      LoadFullscreenShaders hr.fullscreen,
      CreateFullscreenTriangle hr.vb,
      CreateSamplerState hr.sampler,
      LoadBlurShader hr.blurShader,
      CreateRenderTarget hr.mainRTV,
      CreateBlurRenderTarget 1280 720 hr.blur,
      CreateBlurSettingsBuffer hr.cb1 hr.cb2 ]

/-- `CleanupD3D` (lines 334-339): releases the back-buffer view, the swap chain, the context and
the device, each if present. -/
def CleanupD3D : Op :=
  Op.seq CleanupRenderTarget (fun s =>
    some ({ s with g_pSwapChain := none, g_pd3dDeviceContext := none, g_pd3dDevice := none },
      releaseOld s.g_pSwapChain Ptr.g_pSwapChain
        ++ releaseOld s.g_pd3dDeviceContext Ptr.g_pd3dDeviceContext
        ++ releaseOld s.g_pd3dDevice Ptr.g_pd3dDevice))

/-- The results of the calls of `ReinitDeviceAndPipeline`. -/
structure ReinitHr where
  init : InitHr
  blur : SurfaceHr
  temp : SurfaceHr
  deriving DecidableEq

/-- Every call of `ReinitDeviceAndPipeline` succeeds. -/
def ReinitHr.ok : ReinitHr := { init := InitHr.ok, blur := SurfaceHr.ok, temp := SurfaceHr.ok }

/-- `ReinitDeviceAndPipeline` (lines 342-363). -/
def ReinitDeviceAndPipeline (hr : ReinitHr) : Op :=
  Op.chain
    [ Op.call Call.ImGuiShutdown,
      CleanupD3D,
      InitD3D hr.init,
      CreateBlurRenderTarget 1280 720 hr.blur,
      CreateTempRenderTarget 1280 720 hr.temp,
      Op.call Call.ImGuiInit ]

/-! ## Two-pass blur -/

/-- `UpdateBlurSettings` (lines 412-425): maps the settings buffer, writes the texel size
`(1/width, 1/height)` and the radius, and unmaps.  With a null buffer `Map` fails and the write
goes through an uninitialised pointer: a crash.  (For a zero `width` the `float` quotient is
infinite; the rational one is 0.  The program only passes the size of `g_tempTexture`, which is
always created 1280 x 720.) -/
def UpdateBlurSettings (blurRadius : ℚ) (width height : Nat) : Op := fun s =>
  match s.g_pd3dDeviceContext, s.g_blurSettingsBuffer with
  | some _, some _ =>
    let settings : BlurSettings :=
      { texelSize := (1 / (width : ℚ), 1 / (height : ℚ)), blurRadius := blurRadius }
    some ({ s with g_blurSettingsBuffer := some ⟨some settings⟩ }, [Call.MapWriteUnmap settings])
  | _, _ => none

/-- `ID3D11DeviceContext::ClearRenderTargetView`. -/
def ClearRenderTargetView (rtv : Option RenderTargetView) : Op :=
  Op.ctx id (Call.ClearRenderTargetView rtv)

/-- `ID3D11DeviceContext::OMSetRenderTargets(1, &rtv, nullptr)`. -/
def OMSetRenderTargets (rtv : Option RenderTargetView) : Op :=
  Op.ctx (fun d => { d with OMRenderTarget := rtv }) (Call.OMSetRenderTargets rtv)

/-- `ID3D11DeviceContext::PSSetShader`. -/
def PSSetShader (ps : Option Shader) : Op :=
  Op.ctx (fun d => { d with PSShader := ps }) (Call.PSSetShader ps)

/-- `ID3D11DeviceContext::PSSetSamplers(0, 1, ...)`. -/
def PSSetSamplers (sampler : Option SamplerState) : Op :=
  Op.ctx (fun d => { d with PSSampler := sampler }) (Call.PSSetSamplers sampler)

/-- `ID3D11DeviceContext::PSSetConstantBuffers(0, 1, g_blurSettingsBuffer.GetAddressOf())`. -/
def PSSetConstantBuffers : Op := fun s =>
  Op.ctx (fun d => { d with PSConstantBuffer := s.g_blurSettingsBuffer.isSome })
    (Call.PSSetConstantBuffers s.g_blurSettingsBuffer.isSome) s

/-- `ID3D11DeviceContext::PSSetShaderResources(0, 1, &srv)`. -/
def PSSetShaderResources (srv : Option ShaderResourceView) : Op :=
  Op.ctx (fun d => { d with PSShaderResource := srv }) (Call.PSSetShaderResources srv)

/-- `ID3D11DeviceContext::VSSetShader`. -/
def VSSetShader (vs : Option Shader) : Op :=
  Op.ctx (fun d => { d with VSShader := vs }) (Call.VSSetShader vs)

/-- `ID3D11DeviceContext::IASetInputLayout`. -/
def IASetInputLayout (l : Option InputLayout) : Op :=
  Op.ctx (fun d => { d with IAInputLayout := l }) (Call.IASetInputLayout l)

/-- `ID3D11DeviceContext::IASetVertexBuffers(0, 1, &vb, &stride, &offset)`. -/
def IASetVertexBuffers (vb : Option (List FullscreenVertex)) (stride offset : Nat) : Op :=
  Op.ctx (fun d => { d with IAVertexBuffer := vb }) (Call.IASetVertexBuffers vb stride offset)

/-- `ID3D11DeviceContext::IASetPrimitiveTopology`. -/
def IASetPrimitiveTopology (t : Topology) : Op :=
  Op.ctx (fun d => { d with IAPrimitiveTopology := some t }) (Call.IASetPrimitiveTopology t)

/-- What a draw issued now would read and write. -/
def drawState (s : Renderer) (d : DeviceContext) : DrawState :=
  { target := d.OMRenderTarget,
    input := d.PSShaderResource,
    pixelShader := d.PSShader,
    viewport := d.RSViewport,
    settings :=
      if d.PSConstantBuffer then
        match s.g_blurSettingsBuffer with
        | some b => b.data
        | none => none
      else none }

/-- `ID3D11DeviceContext::Draw`; the log entry records the bindings the draw runs with. -/
def Draw (VertexCount StartVertexLocation : Nat) : Op := fun s =>
  match s.g_pd3dDeviceContext with
  | none => none
  | some d => some (s, [Call.Draw VertexCount StartVertexLocation (drawState s d)])

/-- The `sizeof(FullscreenVertex)`: four floats. -/
def stride : Nat := 16

/-- `ApplyGaussianBlur` (lines 539-616).  The first log entry marks the invocation; `texDesc` is
the description read from `g_tempTexture` (a null `g_tempTexture` is a crash). -/
def ApplyGaussianBlur (inputSRV : Option ShaderResourceView)
    (outputRTV : Option RenderTargetView) (blurRadius : ℚ) : Op := fun s =>
  match s.g_tempTexture with
  | none => none
  | some texDesc =>
    let vp := viewportOf texDesc.Width texDesc.Height
    Op.chain
      [ Op.call (Call.ApplyGaussianBlur inputSRV outputRTV blurRadius),
        -- 1) horizontal pass into g_tempRTV
        ClearRenderTargetView s.g_tempRTV,
        OMSetRenderTargets s.g_tempRTV,
        UpdateBlurSettings blurRadius texDesc.Width texDesc.Height,
        PSSetShader s.g_blurHorizontalPS,
        PSSetSamplers s.g_linearClampSampler,
        PSSetConstantBuffers,
        PSSetShaderResources inputSRV,
        VSSetShader s.g_fullscreenVS,
        IASetInputLayout s.g_inputLayout,
        IASetVertexBuffers s.g_fullscreenVB stride 0,
        IASetPrimitiveTopology Topology.TRIANGLELIST,
        RSSetViewports vp,
        Draw 3 0,
        -- 2) vertical pass into outputRTV
        ClearRenderTargetView outputRTV,
        OMSetRenderTargets outputRTV,
        UpdateBlurSettings blurRadius texDesc.Width texDesc.Height,
        PSSetShader s.g_blurVerticalPS,
        PSSetSamplers s.g_linearClampSampler,
        PSSetConstantBuffers,
        PSSetShaderResources s.g_tempSRV,
        VSSetShader s.g_fullscreenVS,
        IASetInputLayout s.g_inputLayout,
        IASetVertexBuffers s.g_fullscreenVB stride 0,
        IASetPrimitiveTopology Topology.TRIANGLELIST,
        RSSetViewports vp,
        Draw 3 0 ] s

/-! ## Main loop -/

/-- The results of the calls of `WinMain` before the message loop. -/
structure StartHr where
  init : InitHr
  blur : SurfaceHr
  temp : SurfaceHr
  deriving DecidableEq

/-- Every call of the start-up succeeds. -/
def StartHr.ok : StartHr := { init := InitHr.ok, blur := SurfaceHr.ok, temp := SurfaceHr.ok }

/-- `WinMain` up to the message loop (lines 658-666): `selectedAdapterIndex = 0`, `InitD3D`, then
the blur and the intermediate surface at 1280 x 720, then ImGui. -/
def startup (hr : StartHr) : Op :=
  Op.chain
    [ (fun s => some ({ s with selectedAdapterIndex := 0 }, [])),
      InitD3D hr.init,
      CreateBlurRenderTarget 1280 720 hr.blur,
      CreateTempRenderTarget 1280 720 hr.temp,
      Op.call Call.ImGuiInit ]

/-- What the "Open Image" button leads to: the dialog is cancelled (empty path), the file fails
to load (`LoadTextureFromFile` returns null), or it loads as a `width` x `height` texture. -/
inductive OpenResult
  | cancelled
  | failed
  | loaded (width height : Nat)
  deriving DecidableEq

/-- The user input and the environment of one frame. -/
structure FrameInput where
  /-- the entry of the GPU combo clicked in this frame -/
  selectAdapter : Option Nat
  /-- "Use This GPU" pressed, with the results of the re-creation -/
  useThisGPU : Option ReinitHr
  /-- "Open Image" pressed -/
  openImage : Option OpenResult
  /-- the result of `ImGui::GetContentRegionAvail` -/
  avail : ℚ × ℚ
  /-- the value the slider writes to `g_blurRadius` -/
  slider : Option ℚ
  deriving DecidableEq

/-- A frame without user input. -/
def FrameInput.idle : FrameInput :=
  { selectAdapter := none, useThisGPU := none, openImage := none, avail := (0, 0), slider := none }

/-- The slider check at the top of the frame (lines 686-690). -/
def checkSlider : Op := fun s =>
  if |s.g_blurRadius - s.oldBlurRadius| > 1 / 10000 then
    some ({ s with oldBlurRadius := s.g_blurRadius, needsUpdate := true }, [])
  else some (s, [])

/-- `ShowAdapterPicker` (lines 366-385): reads `adapterNames[selectedAdapterIndex]`, stores a
clicked entry, and re-initialises on "Use This GPU". -/
def ShowAdapterPicker (selectAdapter : Option Nat) (useThisGPU : Option ReinitHr) : Op :=
  fun s =>
    if s.selectedAdapterIndex < s.adapters then
      let s1 :=
        match selectAdapter with
        | some i => if i < s.adapters then { s with selectedAdapterIndex := i } else s
        | none => s
      match useThisGPU with
      | some hr => ReinitDeviceAndPipeline hr s1
      | none => some (s1, [])
    else none

/-- The "Open Image" handler (lines 702-725): `needsUpdate` is set as soon as the button is
pressed; a non-empty path replaces `g_loadedImageSRV` by the result of `LoadTextureFromFile`. -/
def openImageHandler (openImage : Option OpenResult) : Op := fun s =>
  match openImage with
  | none => some (s, [])
  | some OpenResult.cancelled => some ({ s with needsUpdate := true }, [])
  | some OpenResult.failed =>
    some ({ s with needsUpdate := true, g_loadedImageSRV := none },
      releaseOld s.g_loadedImageSRV Ptr.g_loadedImageSRV
        ++ [Call.OutputDebugString DebugText.failedLoadImage])
  | some (OpenResult.loaded width height) =>
    match s.g_pd3dDevice with
    | none => none
    | some _ =>
      let texture : Texture2D := { id := s.nextId, Width := width, Height := height }
      some ({ s with needsUpdate := true, g_loadedImageSRV := some ⟨texture⟩,
                     nextId := s.nextId + 1 },
        releaseOld s.g_loadedImageSRV Ptr.g_loadedImageSRV
          ++ [Call.CreateTexture2D width height, Call.CreateShaderResourceView (some texture)])

/-- The display size computed in the main loop (lines 743-757) for an image of
`imageWidth` x `imageHeight` and the available region `availableSize`. -/
def displaySize (imageWidth imageHeight : Nat) (availableSize : ℚ × ℚ) : ℚ × ℚ :=
  let aspectRatio : ℚ := (imageWidth : ℚ) / (imageHeight : ℚ)
  if availableSize.1 / aspectRatio ≤ availableSize.2 then
    (availableSize.1, availableSize.1 / aspectRatio)
  else
    (availableSize.2 * aspectRatio, availableSize.2)

/-- The image block of the frame (lines 727-770): with an image loaded, re-blur when
`needsUpdate` is set and clear the flag, then show the blur output. -/
def showImage (avail : ℚ × ℚ) : Op := fun s =>
  match s.g_loadedImageSRV with
  | none => some (s, [])
  | some img =>
    let availableSize := displaySize img.resource.Width img.resource.Height avail
    Op.seq
      (fun s =>
        if s.needsUpdate ∧ s.g_loadedImageSRV.isSome then
          Op.chain
            [ ClearRenderTargetView s.g_blurRenderTargetView,
              ApplyGaussianBlur s.g_loadedImageSRV s.g_blurRenderTargetView s.g_blurRadius,
              (fun s => some ({ s with needsUpdate := false }, [])) ] s
        else some (s, []))
      (fun s => some (s, [Call.ImGuiImage s.g_blurShaderResourceView availableSize])) s

/-- The slider of the settings window (line 773). -/
def sliderFloat (slider : Option ℚ) : Op := fun s =>
  match slider with
  | some v => some ({ s with g_blurRadius := v }, [])
  | none => some (s, [])

/-- The end of the frame (lines 777-783): render the UI into the back buffer and present. -/
def present : Op := fun s =>
  match s.g_pSwapChain with
  | none => none
  | some _ =>
    Op.chain
      [ OMSetRenderTargets s.g_mainRenderTargetView,
        ClearRenderTargetView s.g_mainRenderTargetView,
        Op.call Call.ImGuiRenderDrawData,
        Op.call (Call.Present 1) ] s

/-- The frame up to the blur decision (lines 683-725): slider check, the GPU picker and the
"Open Image" handler. -/
def beforeDecision (inp : FrameInput) : Op :=
  Op.chain
    [ checkSlider,
      Op.call Call.ImGuiNewFrame,
      ShowAdapterPicker inp.selectAdapter inp.useThisGPU,
      openImageHandler inp.openImage ]

/-- One iteration of the main loop with no message pending (lines 683-783). -/
def frame (inp : FrameInput) : Op :=
  Op.chain
    [ beforeDecision inp,
      showImage inp.avail,
      sliderFloat inp.slider,
      present ]

/-- One iteration of the main loop: a dispatched message or a frame. -/
inductive Event
  | message (imguiHandled : Bool) (msg : Msg) (hr : ResizeHr)
  | frame (inp : FrameInput)

/-- The iteration of the main loop for an event. -/
def step : Event → Op
  | Event.message imguiHandled msg hr => WndProc imguiHandled msg hr
  | Event.frame inp => frame inp

/-- The main loop over a sequence of events. -/
def run : List Event → Op
  | [] => Op.skip
  | e :: rest => Op.seq (step e) (run rest)

/-- Whether a log entry marks an invocation of `ApplyGaussianBlur`. -/
def Call.isBlur : Call → Bool
  | Call.ApplyGaussianBlur _ _ _ => true
  | _ => false

/-- The number of `ApplyGaussianBlur` invocations in a log. -/
def blurCount (log : List Call) : Nat := log.countP Call.isBlur

/-- The draws of a log, with the bindings each ran with. -/
def draws : List Call → List DrawState
  | [] => []
  | Call.Draw _ _ b :: rest => b :: draws rest
  | _ :: rest => draws rest

/-! ## Observations -/

/-- The pixel size of a texture. -/
def Texture2D.size (t : Texture2D) : Nat × Nat := (t.Width, t.Height)

/-- The size of the swap chain's back buffer. -/
def backBufferSize (s : Renderer) : Option (Nat × Nat) :=
  s.g_pSwapChain.map (fun c => c.buffer.size)

/-- The size of the blur-output surface. -/
def blurSurfaceSize (s : Renderer) : Option (Nat × Nat) :=
  s.g_blurRenderTargetTexture.map Texture2D.size

/-- The size of the horizontal-intermediate surface. -/
def tempSurfaceSize (s : Renderer) : Option (Nat × Nat) :=
  s.g_tempTexture.map Texture2D.size

/-- The sizes of back buffer, blur-output surface and intermediate surface. -/
def surfaceSizes (s : Renderer) : Option (Nat × Nat) × Option (Nat × Nat) × Option (Nat × Nat) :=
  (backBufferSize s, blurSurfaceSize s, tempSurfaceSize s)

/-- Runs `op` on the globals an earlier result left; the log is that of `op` alone. -/
def andThen (r : Option (Renderer × List Call)) (op : Op) : Option (Renderer × List Call) :=
  r.bind (fun p => op p.1)

/-- The result of a start-up in which every call succeeds, on a machine with one adapter. -/
def started : Option (Renderer × List Call) := startup StartHr.ok (Renderer.initial 1)

/-- The globals a result holds (the initial ones after a crash). -/
def stateOf (r : Option (Renderer × List Call)) : Renderer :=
  match r with
  | some p => p.1
  | none => Renderer.initial 1

/-- The log of a result (empty after a crash). -/
def logOf (r : Option (Renderer × List Call)) : List Call :=
  match r with
  | some p => p.2
  | none => []

/-- The variables of the recompute controller: the slider value, the recorded radius, the dirty
flag and the source image. -/
def ctrl (s : Renderer) : ℚ × ℚ × Bool × Option ShaderResourceView :=
  (s.g_blurRadius, s.oldBlurRadius, s.needsUpdate, s.g_loadedImageSRV)

/-- The views the blur passes go through, and the id allocator. -/
def surf (s : Renderer) : Option RenderTargetView × Option ShaderResourceView × Nat :=
  (s.g_blurRenderTargetView, s.g_tempSRV, s.nextId)

/-- An operation that never touches the controller variables, the blur and intermediate views
or the allocator, and never invokes the blur. -/
def Boring (op : Op) : Prop :=
  ∀ s s' l, op s = some (s', l) → ctrl s' = ctrl s ∧ surf s' = surf s ∧ blurCount l = 0

/-- The blur-output view and the intermediate sampled view are on textures the allocator has
handed out, and on different ones. -/
def Inv (s : Renderer) : Prop :=
  (∀ r, s.g_blurRenderTargetView = some r → r.resource.id < s.nextId) ∧
  (∀ v, s.g_tempSRV = some v → v.resource.id < s.nextId) ∧
  (∀ r v, s.g_blurRenderTargetView = some r → s.g_tempSRV = some v →
    r.resource.id ≠ v.resource.id)

/-- An operation outside the recompute controller: it keeps the controller variables, never
invokes the blur and maintains `Inv`. -/
def Good (op : Op) : Prop :=
  ∀ s s' l, op s = some (s', l) → ctrl s' = ctrl s ∧ blurCount l = 0 ∧ (Inv s → Inv s')

/-- An operation that maintains `Inv`. -/
def KeepsInv (op : Op) : Prop :=
  ∀ s s' l, op s = some (s', l) → Inv s → Inv s'

/-- A draw that reads the resource it writes: render target and shader input are views of the
same texture. -/
def DrawState.Hazard (d : DrawState) : Prop :=
  ∃ t i, d.target = some t ∧ d.input = some i ∧ t.resource.id = i.resource.id

/-- The globals with which the main loop can reach the blur decision of a frame: start-up, any
sequence of messages and frames, then a frame up to the decision. -/
def AtBlurDecision (s : Renderer) : Prop :=
  ∃ n hr evs inp l,
    Op.chain [startup hr, run evs, beforeDecision inp] (Renderer.initial n) = some (s, l)

/-- The settings both passes of `ApplyGaussianBlur` write for a radius and the intermediate
texture `t`. -/
def blurSettingsOf (blurRadius : ℚ) (t : Texture2D) : BlurSettings :=
  { texelSize := (1 / (t.Width : ℚ), 1 / (t.Height : ℚ)), blurRadius := blurRadius }

/-- The bindings `ApplyGaussianBlur` leaves in the context. -/
def blurContext (s : Renderer) (outputRTV : Option RenderTargetView) (t : Texture2D) :
    DeviceContext :=
  { OMRenderTarget := outputRTV, PSShader := s.g_blurVerticalPS,
    PSSampler := s.g_linearClampSampler, PSConstantBuffer := true,
    PSShaderResource := s.g_tempSRV, VSShader := s.g_fullscreenVS,
    IAInputLayout := s.g_inputLayout, IAVertexBuffer := s.g_fullscreenVB,
    IAPrimitiveTopology := some Topology.TRIANGLELIST,
    RSViewport := some (viewportOf t.Width t.Height) }

/-- The bindings of the horizontal draw. -/
def horizontalDraw (s : Renderer) (inputSRV : Option ShaderResourceView) (blurRadius : ℚ)
    (t : Texture2D) : DrawState :=
  { target := s.g_tempRTV, input := inputSRV, pixelShader := s.g_blurHorizontalPS,
    viewport := some (viewportOf t.Width t.Height), settings := some (blurSettingsOf blurRadius t) }

/-- The bindings of the vertical draw. -/
def verticalDraw (s : Renderer) (outputRTV : Option RenderTargetView) (blurRadius : ℚ)
    (t : Texture2D) : DrawState :=
  { target := outputRTV, input := s.g_tempSRV, pixelShader := s.g_blurVerticalPS,
    viewport := some (viewportOf t.Width t.Height), settings := some (blurSettingsOf blurRadius t) }

/-- The calls of one `ApplyGaussianBlur`, in order. -/
def blurLog (s : Renderer) (inputSRV : Option ShaderResourceView)
    (outputRTV : Option RenderTargetView) (blurRadius : ℚ) (t : Texture2D) : List Call :=
  [ Call.ApplyGaussianBlur inputSRV outputRTV blurRadius,
    Call.ClearRenderTargetView s.g_tempRTV,
    Call.OMSetRenderTargets s.g_tempRTV,
    Call.MapWriteUnmap (blurSettingsOf blurRadius t),
    Call.PSSetShader s.g_blurHorizontalPS,
    Call.PSSetSamplers s.g_linearClampSampler,
    Call.PSSetConstantBuffers true,
    Call.PSSetShaderResources inputSRV,
    Call.VSSetShader s.g_fullscreenVS,
    Call.IASetInputLayout s.g_inputLayout,
    Call.IASetVertexBuffers s.g_fullscreenVB stride 0,
    Call.IASetPrimitiveTopology Topology.TRIANGLELIST,
    Call.RSSetViewports (viewportOf t.Width t.Height),
    Call.Draw 3 0 (horizontalDraw s inputSRV blurRadius t),
    Call.ClearRenderTargetView outputRTV,
    Call.OMSetRenderTargets outputRTV,
    Call.MapWriteUnmap (blurSettingsOf blurRadius t),
    Call.PSSetShader s.g_blurVerticalPS,
    Call.PSSetSamplers s.g_linearClampSampler,
    Call.PSSetConstantBuffers true,
    Call.PSSetShaderResources s.g_tempSRV,
    Call.VSSetShader s.g_fullscreenVS,
    Call.IASetInputLayout s.g_inputLayout,
    Call.IASetVertexBuffers s.g_fullscreenVB stride 0,
    Call.IASetPrimitiveTopology Topology.TRIANGLELIST,
    Call.RSSetViewports (viewportOf t.Width t.Height),
    Call.Draw 3 0 (verticalDraw s outputRTV blurRadius t) ]

/-- The globals after one `ApplyGaussianBlur`: new context bindings and settings contents. -/
def blurResult (s : Renderer) (outputRTV : Option RenderTargetView) (blurRadius : ℚ)
    (t : Texture2D) : Renderer :=
  { s with g_pd3dDeviceContext := some (blurContext s outputRTV t),
           g_blurSettingsBuffer := some ⟨some (blurSettingsOf blurRadius t)⟩ }

/-- The three surface sizes a result holds. -/
def sizesAfter (r : Option (Renderer × List Call)) :
    Option (Option (Nat × Nat) × Option (Nat × Nat) × Option (Nat × Nat)) :=
  r.map (fun p => surfaceSizes p.1)

/-- The geometry of a draw: the size of the texture it renders into, the viewport size and the
texel size in the settings buffer. -/
structure Geometry where
  targetSize : Option (Nat × Nat)
  viewportSize : Option (ℚ × ℚ)
  texelSize : Option (ℚ × ℚ)
  deriving DecidableEq

/-- The geometry of a draw. -/
def DrawState.geometry (d : DrawState) : Geometry :=
  { targetSize := d.target.map (fun t => t.resource.size),
    viewportSize := d.viewport.map (fun v => (v.Width, v.Height)),
    texelSize := d.settings.map (fun b => b.texelSize) }

/-- A `WM_SIZE` message for a restored window (`wParam = 0`) of `width` x `height`, every call
of the handler succeeding. -/
def resizeTo (width height : Nat) : Op :=
  WndProc false (Msg.WM_SIZE 0 (MAKELPARAM width height)) ResizeHr.ok

/-- A frame in which "Open Image" loads a `width` x `height` image. -/
def loadFrame (width height : Nat) : FrameInput :=
  { FrameInput.idle with openImage := some (OpenResult.loaded width height) }

/-- The results of a `WM_SIZE` handler in which the swap chain resizes and the blur texture
cannot be created. -/
def ResizeHr.noTexture : ResizeHr :=
  { resize := true, mainRTV := true, blur := { texture := false, rtv := false, srv := false } }

/-- The globals at the blur decision of the first frame after `started`, when that frame loads a
4 x 4 image. -/
def firstDecision : Renderer :=
  stateOf (Op.chain [startup StartHr.ok, run [], beforeDecision (loadFrame 4 4)]
    (Renderer.initial 1))

/-! ## The recompute controller, as a state machine -/

/-- The controller's test for a changed radius: the slider value differs from the recorded
radius by more than 1e-4. -/
def radiusChanged (radius recorded : ℚ) : Prop := |radius - recorded| > 1 / 10000

instance (radius recorded : ℚ) : Decidable (radiusChanged radius recorded) := by
  unfold radiusChanged
  infer_instance

/-- Whether a source image is loaded after the "Open Image" handler, given whether one was
loaded before. -/
def imageAfter (openImage : Option OpenResult) (before : Bool) : Bool :=
  match openImage with
  | none => before
  | some OpenResult.cancelled => before
  | some OpenResult.failed => false
  | some (OpenResult.loaded _ _) => true

/-- The state of the recompute controller as the program keeps it: the slider value
(`g_blurRadius`), the recorded radius (`oldBlurRadius`, the slider value at the last detected
change) and the dirty flag (`needsUpdate`). -/
structure Controller where
  radius : ℚ
  recorded : ℚ
  dirty : Bool
  deriving DecidableEq

/-- The controller state held in the globals. -/
def controllerOf (s : Renderer) : Controller :=
  { radius := s.g_blurRadius, recorded := s.oldBlurRadius, dirty := s.needsUpdate }

/-- Whether the program's controller is dirty at the blur decision of a frame: the flag was left
set, the slider check (lines 687-690) finds the slider more than 1e-4 from the recorded radius,
or "Open Image" is pressed in this frame (line 704). -/
def Controller.dirtyAt (c : Controller) (inp : FrameInput) : Bool :=
  c.dirty || decide (radiusChanged c.radius c.recorded) || inp.openImage.isSome

/-- The program's controller after a frame with a source image loaded: the radius is what the
slider leaves, the slider check has recorded the slider value if it found a change, and the
flag is clear. -/
def Controller.next (c : Controller) (inp : FrameInput) : Controller :=
  { radius := inp.slider.getD c.radius,
    recorded := if radiusChanged c.radius c.recorded then c.radius else c.recorded,
    dirty := false }

/-- The number of blurs for the changes the program's controller detects, over a sequence of
events with a source image loaded: one for every frame at whose blur decision `dirtyAt` holds,
none for the other frames and for messages. -/
def detectedBlurs (c : Controller) : List Event → Nat
  | [] => 0
  | Event.message _ _ _ :: rest => detectedBlurs c rest
  | Event.frame inp :: rest =>
    (if c.dirtyAt inp then 1 else 0) + detectedBlurs (c.next inp) rest

/-- The program's controller after a sequence of events with a source image loaded. -/
def Controller.after (c : Controller) : List Event → Controller
  | [] => c
  | Event.message _ _ _ :: rest => c.after rest
  | Event.frame inp :: rest => (c.next inp).after rest

/-- The Recompute Controller in the spec's words (section 4.5): the displayed (current) radius,
the radius last blurred (`none` while nothing has been blurred) and the state, Dirty or not. -/
structure SpecController where
  radius : ℚ
  blurred : Option ℚ
  dirty : Bool
  deriving DecidableEq

/-- Whether the spec's controller is Dirty at the blur decision of a frame: it was Dirty before,
or (a) the displayed radius differs from the last blurred radius by more than 1e-4, or (b) a new
source image is loaded in this frame. -/
def SpecController.dirtyAt (c : SpecController) (inp : FrameInput) : Bool :=
  c.dirty ||
    (match c.blurred with
     | some b => decide (radiusChanged c.radius b)
     | none => false) ||
    inp.openImage.isSome

/-- The spec's controller after a frame: a Dirty controller has blurred and recorded the radius
just applied; it is not Dirty any more; the radius is what the slider leaves. -/
def SpecController.next (c : SpecController) (inp : FrameInput) : SpecController :=
  { radius := inp.slider.getD c.radius,
    blurred := if c.dirtyAt inp then some c.radius else c.blurred,
    dirty := false }

/-- The number of blurs the spec prescribes for a sequence of events with a source image loaded:
exactly one in every frame in which its controller is Dirty (one per run of uncommitted
changes, at most one per frame), none otherwise. -/
def specBlurs (c : SpecController) : List Event → Nat
  | [] => 0
  | Event.message _ _ _ :: rest => specBlurs c rest
  | Event.frame inp :: rest =>
    (if c.dirtyAt inp then 1 else 0) + specBlurs (c.next inp) rest

/-- No frame of the sequence blurs with the slider off the recorded radius by an undetected
amount: whenever the program's controller is dirty at a blur decision without the slider check
having found a change (the flag was left set, or an image is loaded), the slider value is
exactly the recorded radius. -/
def noDrift (c : Controller) : List Event → Bool
  | [] => true
  | Event.message _ _ _ :: rest => noDrift c rest
  | Event.frame inp :: rest =>
    (!c.dirtyAt inp || decide (radiusChanged c.radius c.recorded)
        || decide (c.radius = c.recorded))
      && noDrift (c.next inp) rest

/-- A frame whose "Open Image" button, if pressed, loads an image. -/
def FrameInput.OnlyLoads (inp : FrameInput) : Prop :=
  inp.openImage = none ∨ ∃ width height, inp.openImage = some (OpenResult.loaded width height)

/-- The globals with which neither a frame nor a message dereferences a null pointer: device,
context, swap chain, intermediate texture and settings buffer exist and the selected adapter is
in range. -/
def Ready (s : Renderer) : Prop :=
  s.g_pd3dDevice.isSome ∧ s.g_pd3dDeviceContext.isSome ∧ s.g_pSwapChain.isSome ∧
  s.g_tempTexture.isSome ∧ s.g_blurSettingsBuffer.isSome ∧
  s.selectedAdapterIndex < s.adapters

/-- An operation that returns on `Ready` globals and leaves them `Ready`. -/
def Total (op : Op) : Prop :=
  ∀ s, Ready s → ∃ s' l, op s = some (s', l) ∧ Ready s'

/-- The radii passed to `ApplyGaussianBlur` in a log, in order. -/
def blurRadii : List Call → List ℚ
  | [] => []
  | Call.ApplyGaussianBlur _ _ r :: rest => r :: blurRadii rest
  | _ :: rest => blurRadii rest

/-- The globals after `started` and a first frame that loads a 4 x 4 image (and so blurs). -/
def loadedState : Renderer := stateOf (andThen started (frame (loadFrame 4 4)))

/-- A sample session on `loadedState`: the slider goes to 7, the window is resized, two idle
frames, the slider goes to 9, an image is loaded, an idle frame. -/
def sampleEvents : List Event :=
  [ Event.frame { FrameInput.idle with slider := some 7 },
    Event.message false (Msg.WM_SIZE 0 (MAKELPARAM 640 480)) ResizeHr.ok,
    Event.frame FrameInput.idle,
    Event.frame FrameInput.idle,
    Event.frame { FrameInput.idle with slider := some 9 },
    Event.frame (loadFrame 8 8),
    Event.frame FrameInput.idle ]

/-- The first frame after `started`, loading a 4 x 4 image, up to the blur decision. -/
def firstDecisionResult : Option (Renderer × List Call) :=
  beforeDecision (loadFrame 4 4) (stateOf started)

/-- The image block of that frame. -/
def firstBlurResult : Option (Renderer × List Call) :=
  showImage (loadFrame 4 4).avail (stateOf firstDecisionResult)

/-- The globals after `started` and a frame that loads a 4 x 4 image and moves the slider to 7:
blurred at radius 5, radius 5 recorded, slider at 7. -/
def sliderMovedState : Renderer :=
  stateOf (andThen started (frame { loadFrame 4 4 with slider := some 7 }))

/-- The next frame, without input, up to the blur decision. -/
def secondDecisionResult : Option (Renderer × List Call) :=
  beforeDecision FrameInput.idle sliderMovedState

/-- The start-up followed by one resize message. -/
def startedAndResized : Option (Renderer × List Call) :=
  Op.seq (startup StartHr.ok)
    (run [Event.message false (Msg.WM_SIZE 0 (MAKELPARAM 640 480)) ResizeHr.ok])
    (Renderer.initial 1)

/-- The first frame after that, without input, up to the blur decision. -/
def resizedDecisionResult : Option (Renderer × List Call) :=
  beforeDecision FrameInput.idle (stateOf startedAndResized)

/-- A frame that loads a 4 x 4 image and in which the slider then goes to `v`. -/
def loadAndSlide (v : ℚ) : FrameInput := { loadFrame 4 4 with slider := some v }

/-- A session on `loadedState` (blurred at radius 5, slider at 5): the slider goes to 5.00009,
an image is loaded and the slider goes to 4.99995, then two frames without input. -/
def driftEvents : List Event :=
  [ Event.frame { FrameInput.idle with slider := some (500009 / 100000) },
    Event.frame { loadFrame 4 4 with slider := some (499995 / 100000) },
    Event.frame FrameInput.idle,
    Event.frame FrameInput.idle ]

/-- A frame in which "Open Image" is pressed and the dialog cancelled. -/
def cancelFrame : FrameInput := { FrameInput.idle with openImage := some OpenResult.cancelled }

/-- What the controller shows after a result: the radii of the blurs in the log, the slider
value, the recorded radius and the dirty flag. -/
structure ControllerView where
  blurred : List ℚ
  radius : ℚ
  recorded : ℚ
  dirty : Bool
  deriving DecidableEq

/-- The controller view of a result. -/
def viewOf (r : Option (Renderer × List Call)) : Option ControllerView :=
  r.map (fun p => { blurred := blurRadii p.2, radius := p.1.g_blurRadius,
                    recorded := p.1.oldBlurRadius, dirty := p.1.needsUpdate })

/-! ## Surfaces as triples -/

/-- A surface as the program holds it: the texture pointer and the two view pointers. -/
structure SurfaceView where
  texture : Option Texture2D
  rtv : Option RenderTargetView
  srv : Option ShaderResourceView
  deriving DecidableEq

/-- The blur-output surface held in the globals. -/
def blurSurface (s : Renderer) : SurfaceView :=
  { texture := s.g_blurRenderTargetTexture, rtv := s.g_blurRenderTargetView,
    srv := s.g_blurShaderResourceView }

/-- The horizontal-intermediate surface held in the globals. -/
def tempSurface (s : Renderer) : SurfaceView :=
  { texture := s.g_tempTexture, rtv := s.g_tempRTV, srv := s.g_tempSRV }

/-- What a surface creation with the call results `hr` leaves in the three pointers, `id` being
the identity of the texture when it is created: the texture if its creation succeeded, and
each view if the texture and that view's creation succeeded. -/
def replacement (hr : SurfaceHr) (id width height : Nat) : SurfaceView :=
  { texture := if hr.texture then some { id := id, Width := width, Height := height } else none,
    rtv := if hr.texture ∧ hr.rtv then some ⟨{ id := id, Width := width, Height := height }⟩
           else none,
    srv := if hr.texture ∧ hr.srv then some ⟨{ id := id, Width := width, Height := height }⟩
           else none }

/-- The surface a result holds as blur-output surface, with the log. -/
def blurSurfaceAfter (r : Option (Renderer × List Call)) : Option (SurfaceView × List Call) :=
  r.map (fun p => (blurSurface p.1, p.2))

/-- The surface a result holds as intermediate surface, with the log. -/
def tempSurfaceAfter (r : Option (Renderer × List Call)) : Option (SurfaceView × List Call) :=
  r.map (fun p => (tempSurface p.1, p.2))

/-! ## Sample start-ups and what a frame shows -/

/-- A start-up in which compiling the horizontal blur stage fails, with an error blob. -/
def StartHr.failHorizontal : StartHr :=
  { StartHr.ok with
    init := { InitHr.ok with
      blurShader := { compileH := CompileResult.failed true, createH := true,
                      compileV := CompileResult.ok, createV := true } } }

/-- A start-up in which compiling the vertical blur stage fails, with an error blob. -/
def StartHr.failVertical : StartHr :=
  { StartHr.ok with
    init := { InitHr.ok with
      blurShader := { compileH := CompileResult.ok, createH := true,
                      compileV := CompileResult.failed true, createV := true } } }

/-- The views passed to `ImGui::Image` in a log, in order. -/
def shown : List Call → List (Option ShaderResourceView)
  | [] => []
  | Call.ImGuiImage srv _ :: rest => srv :: shown rest
  | _ :: rest => shown rest

/-- The identities of the textures the draws of a log render into, in order. -/
def drawTargetIds (l : List Call) : List (Option Nat) :=
  (draws l).map (fun d => d.target.map (fun t => t.resource.id))

/-- What a frame did with the blur output: the views it showed, how often it blurred, and the
dirty flag it left. -/
structure Shown where
  views : List (Option ShaderResourceView)
  blurs : Nat
  dirty : Bool
  deriving DecidableEq

/-- What the last operation of a result did with the blur output. -/
def shownBy (r : Option (Renderer × List Call)) : Option Shown :=
  r.map (fun p => { views := shown p.2, blurs := blurCount p.2, dirty := p.1.needsUpdate })

/-- A frame in which "Use This GPU" is pressed and every call of the re-initialisation
succeeds. -/
def switchFrame : FrameInput := { FrameInput.idle with useThisGPU := some ReinitHr.ok }

/-! ## Geometry -/

/-- The point `(x, y)` lies in the triangle with the three given vertices: it is a convex
combination of their clip-space positions. -/
def InTriangle (vs : List FullscreenVertex) (x y : ℚ) : Prop :=
  match vs with
  | [v0, v1, v2] =>
    ∃ a b c : ℚ, 0 ≤ a ∧ 0 ≤ b ∧ 0 ≤ c ∧ a + b + c = 1 ∧
      x = a * v0.x + b * v1.x + c * v2.x ∧ y = a * v0.y + b * v1.y + c * v2.y
  | _ => False

/-! ## Basic facts about the combinators -/

theorem Op.seq_eq_some {a b : Op} {s s2 : Renderer} {l : List Call} :
    Op.seq a b s = some (s2, l) ↔
      ∃ s1 l1 l2, a s = some (s1, l1) ∧ b s1 = some (s2, l2) ∧ l = l1 ++ l2 := by
  unfold Op.seq
  constructor
  · intro h
    split at h
    · simp at h
    · rename_i s1 l1 h1
      split at h
      · simp at h
      · rename_i s2' l2 h2
        simp only [Option.some.injEq, Prod.mk.injEq] at h
        obtain ⟨rfl, rfl⟩ := h
        exact ⟨s1, l1, l2, h1, h2, rfl⟩
  · rintro ⟨s1, l1, l2, h1, h2, rfl⟩
    simp [h1, h2]

theorem Op.seq_of_some {a b : Op} {s s1 s2 : Renderer} {l1 l2 : List Call}
    (h1 : a s = some (s1, l1)) (h2 : b s1 = some (s2, l2)) :
    Op.seq a b s = some (s2, l1 ++ l2) :=
  Op.seq_eq_some.mpr ⟨s1, l1, l2, h1, h2, rfl⟩

theorem Op.chain_nil (s : Renderer) : Op.chain [] s = some (s, []) := rfl

theorem Op.chain_cons (a : Op) (rest : List Op) :
    Op.chain (a :: rest) = Op.seq a (Op.chain rest) := rfl

/-! ## The result of `ApplyGaussianBlur` -/

theorem ApplyGaussianBlur_eq (inputSRV : Option ShaderResourceView)
    (outputRTV : Option RenderTargetView) (blurRadius : ℚ) (s : Renderer) :
    ApplyGaussianBlur inputSRV outputRTV blurRadius s =
      match s.g_pd3dDeviceContext, s.g_tempTexture, s.g_blurSettingsBuffer with
      | some _, some t, some _ =>
        some (blurResult s outputRTV blurRadius t, blurLog s inputSRV outputRTV blurRadius t)
      | _, _, _ => none := by
  cases s
  rename_i dev ctx sc main rad vs ps il vb samp sel ads sd buf btex brtv bsrv ttex trtv tsrv hps
    vps old needs img nid
  cases ctx <;> cases ttex <;> cases buf <;>
    simp [ApplyGaussianBlur, Op.chain, Op.seq, Op.ctx, Op.call, Op.skip, ClearRenderTargetView,
      OMSetRenderTargets, UpdateBlurSettings, PSSetShader, PSSetSamplers, PSSetConstantBuffers,
      PSSetShaderResources, VSSetShader, IASetInputLayout, IASetVertexBuffers,
      IASetPrimitiveTopology, RSSetViewports, Draw, drawState, blurResult, blurLog, blurContext,
      horizontalDraw, verticalDraw, blurSettingsOf]

/-! ## Counting blur invocations -/

theorem blurCount_nil : blurCount [] = 0 := rfl

theorem blurCount_append (l1 l2 : List Call) :
    blurCount (l1 ++ l2) = blurCount l1 + blurCount l2 := by
  simp [blurCount]

theorem blurCount_cons (c : Call) (l : List Call) :
    blurCount (c :: l) = (if c.isBlur then 1 else 0) + blurCount l := by
  simp [blurCount, List.countP_cons, Nat.add_comm]

theorem blurCount_releaseOld {α : Type} (old : Option α) (p : Ptr) :
    blurCount (releaseOld old p) = 0 := by
  cases old <;> rfl

theorem blurCount_diagnosticOf (b : Bool) : blurCount (diagnosticOf b) = 0 := by
  cases b <;> rfl

theorem blurCount_blurLog (s : Renderer) (inputSRV : Option ShaderResourceView)
    (outputRTV : Option RenderTargetView) (blurRadius : ℚ) (t : Texture2D) :
    blurCount (blurLog s inputSRV outputRTV blurRadius t) = 1 := rfl

theorem draws_blurLog (s : Renderer) (inputSRV : Option ShaderResourceView)
    (outputRTV : Option RenderTargetView) (blurRadius : ℚ) (t : Texture2D) :
    draws (blurLog s inputSRV outputRTV blurRadius t) =
      [horizontalDraw s inputSRV blurRadius t, verticalDraw s outputRTV blurRadius t] := rfl

/-! ## Operations that leave the controller and the surfaces alone -/

theorem boring_skip : Boring Op.skip := by
  intro s s' l h
  simp only [Op.skip, Option.some.injEq, Prod.mk.injEq] at h
  obtain ⟨rfl, rfl⟩ := h
  exact ⟨rfl, rfl, rfl⟩

theorem boring_call {c : Call} (hc : c.isBlur = false) : Boring (Op.call c) := by
  intro s s' l h
  simp only [Op.call, Option.some.injEq, Prod.mk.injEq] at h
  obtain ⟨rfl, rfl⟩ := h
  exact ⟨rfl, rfl, by simp [blurCount_cons, hc, blurCount_nil]⟩

theorem boring_seq {a b : Op} (ha : Boring a) (hb : Boring b) : Boring (Op.seq a b) := by
  intro s s' l h
  obtain ⟨s1, l1, l2, h1, h2, rfl⟩ := Op.seq_eq_some.mp h
  obtain ⟨c1, f1, b1⟩ := ha _ _ _ h1
  obtain ⟨c2, f2, b2⟩ := hb _ _ _ h2
  exact ⟨c2.trans c1, f2.trans f1, by simp [blurCount_append, b1, b2]⟩

theorem boring_chain {ops : List Op} (h : ∀ op ∈ ops, Boring op) : Boring (Op.chain ops) := by
  induction ops with
  | nil => exact boring_skip
  | cons a rest ih =>
    rw [Op.chain_cons]
    exact boring_seq (h a (List.mem_cons_self a rest))
      (ih (fun op hop => h op (List.mem_cons_of_mem a hop)))

theorem boring_ctx {f : DeviceContext → DeviceContext} {c : Call} (hc : c.isBlur = false) :
    Boring (Op.ctx f c) := by
  intro s s' l h
  unfold Op.ctx at h
  split at h
  · simp at h
  · simp only [Option.some.injEq, Prod.mk.injEq] at h
    obtain ⟨rfl, rfl⟩ := h
    exact ⟨rfl, rfl, by simp [blurCount_cons, hc, blurCount_nil]⟩

theorem boring_cleanupRenderTarget : Boring CleanupRenderTarget := by
  intro s s' l h
  unfold CleanupRenderTarget at h
  split at h <;>
    (simp only [Option.some.injEq, Prod.mk.injEq] at h
     obtain ⟨rfl, rfl⟩ := h
     exact ⟨rfl, rfl, rfl⟩)

theorem boring_createRenderTarget (hr : Bool) : Boring (CreateRenderTarget hr) := by
  intro s s' l h
  unfold CreateRenderTarget at h
  split at h
  · simp only [Option.some.injEq, Prod.mk.injEq] at h
    obtain ⟨rfl, rfl⟩ := h
    exact ⟨rfl, rfl, rfl⟩
  · simp at h

theorem boring_loadFullscreenShaders (hr : FullscreenHr) :
    Boring (LoadFullscreenShaders hr) := by
  intro s s' l h
  unfold LoadFullscreenShaders at h
  repeat' split at h
  all_goals first
    | (simp at h; done)
    | (simp only [Option.some.injEq, Prod.mk.injEq] at h
       obtain ⟨rfl, rfl⟩ := h
       refine ⟨rfl, rfl, ?_⟩
       simp [blurCount_append, blurCount_cons, blurCount_nil, blurCount_releaseOld,
         blurCount_diagnosticOf, Call.isBlur])

theorem boring_createFullscreenTriangle (hr : Bool) : Boring (CreateFullscreenTriangle hr) := by
  intro s s' l h
  unfold CreateFullscreenTriangle at h
  split at h
  · simp at h
  · simp only [Option.some.injEq, Prod.mk.injEq] at h
    obtain ⟨rfl, rfl⟩ := h
    refine ⟨rfl, rfl, ?_⟩
    cases hr <;>
      simp [blurCount_append, blurCount_cons, blurCount_nil, blurCount_releaseOld, Call.isBlur]

theorem boring_createSamplerState (hr : Bool) : Boring (CreateSamplerState hr) := by
  intro s s' l h
  unfold CreateSamplerState at h
  split at h
  · simp at h
  · simp only [Option.some.injEq, Prod.mk.injEq] at h
    obtain ⟨rfl, rfl⟩ := h
    refine ⟨rfl, rfl, ?_⟩
    cases hr <;>
      simp [blurCount_append, blurCount_cons, blurCount_nil, blurCount_releaseOld, Call.isBlur]

theorem boring_loadBlurShader (hr : BlurShaderHr) : Boring (LoadBlurShader hr) := by
  intro s s' l h
  unfold LoadBlurShader at h
  repeat' split at h
  all_goals first
    | (simp at h; done)
    | (simp only [Option.some.injEq, Prod.mk.injEq] at h
       obtain ⟨rfl, rfl⟩ := h
       refine ⟨rfl, rfl, ?_⟩
       simp [blurCount_append, blurCount_cons, blurCount_nil, blurCount_releaseOld,
         blurCount_diagnosticOf, Call.isBlur])

theorem boring_createBlurSettingsBuffer (hr1 hr2 : Bool) :
    Boring (CreateBlurSettingsBuffer hr1 hr2) := by
  intro s s' l h
  unfold CreateBlurSettingsBuffer at h
  split at h
  · simp at h
  · simp only [Option.some.injEq, Prod.mk.injEq] at h
    obtain ⟨rfl, rfl⟩ := h
    refine ⟨rfl, rfl, ?_⟩
    cases hr1 <;>
      simp [blurCount_append, blurCount_cons, blurCount_nil, blurCount_releaseOld, Call.isBlur]

theorem boring_rsSetViewports (vp : D3D11_VIEWPORT) : Boring (RSSetViewports vp) :=
  boring_ctx rfl

theorem boring_clearRenderTargetView (rtv : Option RenderTargetView) :
    Boring (ClearRenderTargetView rtv) :=
  boring_ctx rfl

theorem boring_omSetRenderTargets (rtv : Option RenderTargetView) :
    Boring (OMSetRenderTargets rtv) :=
  boring_ctx rfl

theorem boring_cleanupD3D : Boring CleanupD3D := by
  refine boring_seq boring_cleanupRenderTarget ?_
  intro s s' l h
  simp only [Option.some.injEq, Prod.mk.injEq] at h
  obtain ⟨rfl, rfl⟩ := h
  refine ⟨rfl, rfl, ?_⟩
  simp [blurCount_append, blurCount_releaseOld]

theorem boring_present : Boring present := by
  intro s s' l h
  unfold present at h
  split at h
  · simp at h
  · exact boring_chain (by
      intro op hop
      simp only [List.mem_cons, List.mem_singleton, List.not_mem_nil, or_false] at hop
      rcases hop with rfl | rfl | rfl | rfl
      · exact boring_omSetRenderTargets _
      · exact boring_clearRenderTargetView _
      · exact boring_call rfl
      · exact boring_call rfl) _ _ _ h

/-! ## Operations outside the recompute controller -/

theorem inv_of_bump {s s' : Renderer}
    (hb : s'.g_blurRenderTargetView = s.g_blurRenderTargetView)
    (ht : s'.g_tempSRV = s.g_tempSRV) (hn : s.nextId ≤ s'.nextId) (hi : Inv s) : Inv s' := by
  obtain ⟨h1, h2, h3⟩ := hi
  refine ⟨?_, ?_, ?_⟩
  · intro r hr
    rw [hb] at hr
    exact lt_of_lt_of_le (h1 r hr) hn
  · intro v hv
    rw [ht] at hv
    exact lt_of_lt_of_le (h2 v hv) hn
  · intro r v hr hv
    rw [hb] at hr
    rw [ht] at hv
    exact h3 r v hr hv

theorem inv_of_surf_eq {s s' : Renderer} (h : surf s' = surf s) (hi : Inv s) : Inv s' := by
  simp only [surf, Prod.mk.injEq] at h
  exact inv_of_bump h.1 h.2.1 (le_of_eq h.2.2.symm) hi

theorem inv_initial (n : Nat) : Inv (Renderer.initial n) := by
  refine ⟨?_, ?_, ?_⟩ <;> intros <;> simp_all [Renderer.initial]

theorem boring_good {op : Op} (h : Boring op) : Good op := by
  intro s s' l hs
  obtain ⟨hc, hf, hb⟩ := h s s' l hs
  exact ⟨hc, hb, inv_of_surf_eq hf⟩

theorem good_seq {a b : Op} (ha : Good a) (hb : Good b) : Good (Op.seq a b) := by
  intro s s' l h
  obtain ⟨s1, l1, l2, h1, h2, rfl⟩ := Op.seq_eq_some.mp h
  obtain ⟨c1, b1, i1⟩ := ha _ _ _ h1
  obtain ⟨c2, b2, i2⟩ := hb _ _ _ h2
  exact ⟨c2.trans c1, by simp [blurCount_append, b1, b2], fun hi => i2 (i1 hi)⟩

theorem good_chain {ops : List Op} (h : ∀ op ∈ ops, Good op) : Good (Op.chain ops) := by
  induction ops with
  | nil => exact boring_good boring_skip
  | cons a rest ih =>
    rw [Op.chain_cons]
    exact good_seq (h a (List.mem_cons_self a rest))
      (ih (fun op hop => h op (List.mem_cons_of_mem a hop)))

theorem newRTV_eq_some {b c : Bool} {id width height : Nat} {r : RenderTargetView}
    (h : newRTV b (newTexture c id width height) = some r) : r.resource.id = id ∧ c = true := by
  cases b <;> cases c <;> simp [newRTV, newTexture] at h
  subst h
  exact ⟨rfl, rfl⟩

theorem newSRV_eq_some {b c : Bool} {id width height : Nat} {v : ShaderResourceView}
    (h : newSRV b (newTexture c id width height) = some v) : v.resource.id = id ∧ c = true := by
  cases b <;> cases c <;> simp [newSRV, newTexture] at h
  subst h
  exact ⟨rfl, rfl⟩

theorem good_call {c : Call} (hc : c.isBlur = false) : Good (Op.call c) :=
  boring_good (boring_call hc)

theorem good_createDeviceAndSwapChain (hr : Bool) :
    Good (createDeviceAndSwapChain hr) := by
  intro s s' l h
  unfold createDeviceAndSwapChain at h
  split at h
  · simp only [Option.some.injEq, Prod.mk.injEq] at h
    obtain ⟨rfl, rfl⟩ := h
    cases hr
    · exact ⟨rfl, rfl, inv_of_bump rfl rfl (le_refl _)⟩
    · exact ⟨rfl, rfl, inv_of_bump rfl rfl (Nat.le_succ _)⟩
  · simp at h

theorem good_resizeBuffers (width height : Nat) (hr : Bool) :
    Good (ResizeBuffers width height hr) := by
  intro s s' l h
  unfold ResizeBuffers at h
  split at h
  · simp at h
  · simp only [Option.some.injEq, Prod.mk.injEq] at h
    obtain ⟨rfl, rfl⟩ := h
    cases hr
    · exact ⟨rfl, rfl, inv_of_bump rfl rfl (le_refl _)⟩
    · exact ⟨rfl, rfl, inv_of_bump rfl rfl (Nat.le_succ _)⟩

theorem good_createBlurRenderTarget (width height : Nat) (hr : SurfaceHr) :
    Good (CreateBlurRenderTarget width height hr) := by
  intro s s' l h
  unfold CreateBlurRenderTarget at h
  split at h
  · simp at h
  · simp only [Option.some.injEq, Prod.mk.injEq] at h
    obtain ⟨rfl, rfl⟩ := h
    refine ⟨rfl, ?_, ?_⟩
    · obtain ⟨ht, hv, hs⟩ := hr
      cases ht <;> cases hv <;> cases hs <;>
        simp [blurCount_append, blurCount_cons, blurCount_nil, blurCount_releaseOld, Call.isBlur,
          newTexture, newRTV, newSRV]
    · rintro ⟨-, h2, -⟩
      refine ⟨?_, ?_, ?_⟩
      · intro r hr'
        obtain ⟨hid, htex⟩ := newRTV_eq_some hr'
        simp only [hid, htex, if_true]
        exact Nat.lt_succ_self _
      · intro v hv
        have := h2 v hv
        dsimp only
        split <;> omega
      · intro r v hr' hv
        obtain ⟨hid, -⟩ := newRTV_eq_some hr'
        have := h2 v hv
        omega

theorem good_createTempRenderTarget (width height : Nat) (hr : SurfaceHr) :
    Good (CreateTempRenderTarget width height hr) := by
  intro s s' l h
  unfold CreateTempRenderTarget at h
  split at h
  · simp at h
  · simp only [Option.some.injEq, Prod.mk.injEq] at h
    obtain ⟨rfl, rfl⟩ := h
    refine ⟨rfl, ?_, ?_⟩
    · simp [blurCount_append, blurCount_cons, blurCount_nil, blurCount_releaseOld, Call.isBlur]
    · rintro ⟨h1, -, -⟩
      refine ⟨?_, ?_, ?_⟩
      · intro r hr'
        have := h1 r hr'
        dsimp only
        split <;> omega
      · intro v hv
        obtain ⟨hid, htex⟩ := newSRV_eq_some hv
        simp only [hid, htex, if_true]
        exact Nat.lt_succ_self _
      · intro r v hr' hv
        obtain ⟨hid, -⟩ := newSRV_eq_some hv
        have := h1 r hr'
        omega

theorem good_initD3D (hr : InitHr) : Good (InitD3D hr) := by
  refine good_chain ?_
  intro op hop
  simp only [List.mem_cons, List.mem_singleton, List.not_mem_nil, or_false] at hop
  rcases hop with rfl | rfl | rfl | rfl | rfl | rfl | rfl | rfl
  · exact good_createDeviceAndSwapChain _
  · exact boring_good (boring_loadFullscreenShaders _)
  · exact boring_good (boring_createFullscreenTriangle _)
  · exact boring_good (boring_createSamplerState _)
  · exact boring_good (boring_loadBlurShader _)
  · exact boring_good (boring_createRenderTarget _)
  · exact good_createBlurRenderTarget _ _ _
  · exact boring_good (boring_createBlurSettingsBuffer _ _)

theorem good_reinitDeviceAndPipeline (hr : ReinitHr) : Good (ReinitDeviceAndPipeline hr) := by
  refine good_chain ?_
  intro op hop
  simp only [List.mem_cons, List.mem_singleton, List.not_mem_nil, or_false] at hop
  rcases hop with rfl | rfl | rfl | rfl | rfl | rfl
  · exact good_call rfl
  · exact boring_good boring_cleanupD3D
  · exact good_initD3D _
  · exact good_createBlurRenderTarget _ _ _
  · exact good_createTempRenderTarget _ _ _
  · exact good_call rfl

theorem good_startup (hr : StartHr) : Good (startup hr) := by
  refine good_chain ?_
  intro op hop
  simp only [List.mem_cons, List.mem_singleton, List.not_mem_nil, or_false] at hop
  rcases hop with rfl | rfl | rfl | rfl | rfl
  · intro s s' l h
    simp only [Option.some.injEq, Prod.mk.injEq] at h
    obtain ⟨rfl, rfl⟩ := h
    exact ⟨rfl, rfl, inv_of_bump rfl rfl (le_refl _)⟩
  · exact good_initD3D _
  · exact good_createBlurRenderTarget _ _ _
  · exact good_createTempRenderTarget _ _ _
  · exact good_call rfl

theorem good_onSize (wParam lParam : Nat) (hr : ResizeHr) : Good (onSize wParam lParam hr) := by
  intro s s' l h
  unfold onSize at h
  split at h
  · refine good_chain ?_ s s' l h
    intro op hop
    simp only [List.mem_cons, List.mem_singleton, List.not_mem_nil, or_false] at hop
    rcases hop with rfl | rfl | rfl | rfl | rfl
    · exact boring_good boring_cleanupRenderTarget
    · exact good_resizeBuffers _ _ _
    · exact boring_good (boring_createRenderTarget _)
    · exact good_createBlurRenderTarget _ _ _
    · exact boring_good (boring_rsSetViewports _)
  · exact boring_good boring_skip s s' l h

theorem good_wndProc (imguiHandled : Bool) (msg : Msg) (hr : ResizeHr) :
    Good (WndProc imguiHandled msg hr) := by
  unfold WndProc
  split
  · exact boring_good boring_skip
  · cases msg with
    | WM_SIZE wParam lParam => exact good_onSize _ _ _
    | WM_DESTROY => exact good_call rfl
    | other => exact good_call rfl

theorem good_showAdapterPicker (selectAdapter : Option Nat) (useThisGPU : Option ReinitHr) :
    Good (ShowAdapterPicker selectAdapter useThisGPU) := by
  intro s s' l h
  unfold ShowAdapterPicker at h
  split at h
  · cases useThisGPU with
    | none =>
      cases selectAdapter with
      | none =>
        simp only [Option.some.injEq, Prod.mk.injEq] at h
        obtain ⟨rfl, rfl⟩ := h
        exact ⟨rfl, rfl, id⟩
      | some i =>
        simp only [Option.some.injEq, Prod.mk.injEq] at h
        obtain ⟨rfl, rfl⟩ := h
        split
        · exact ⟨rfl, rfl, inv_of_bump rfl rfl (le_refl _)⟩
        · exact ⟨rfl, rfl, id⟩
    | some hr =>
      cases selectAdapter with
      | none => exact good_reinitDeviceAndPipeline hr _ _ _ h
      | some i =>
        dsimp only at h
        split at h
        · obtain ⟨c, b, i⟩ := good_reinitDeviceAndPipeline hr _ _ _ h
          exact ⟨c, b, fun hi => i (inv_of_bump rfl rfl (le_refl _) hi)⟩
        · exact good_reinitDeviceAndPipeline hr _ _ _ h
  · simp at h

/-! ## The recompute controller -/

theorem checkSlider_eq (s : Renderer) :
    checkSlider s =
      some (if |s.g_blurRadius - s.oldBlurRadius| > 1 / 10000 then
              { s with oldBlurRadius := s.g_blurRadius, needsUpdate := true }
            else s, []) := by
  unfold checkSlider
  split <;> rfl

theorem showImage_eq (avail : ℚ × ℚ) (s : Renderer) :
    showImage avail s =
      match s.g_loadedImageSRV with
      | none => some (s, [])
      | some img =>
        if s.needsUpdate then
          match s.g_pd3dDeviceContext, s.g_tempTexture, s.g_blurSettingsBuffer with
          | some _, some t, some _ =>
            some ({ blurResult s s.g_blurRenderTargetView s.g_blurRadius t with
                      needsUpdate := false },
                  Call.ClearRenderTargetView s.g_blurRenderTargetView
                    :: blurLog s s.g_loadedImageSRV s.g_blurRenderTargetView s.g_blurRadius t
                    ++ [Call.ImGuiImage s.g_blurShaderResourceView
                          (displaySize img.resource.Width img.resource.Height avail)])
          | _, _, _ => none
        else
          some (s, [Call.ImGuiImage s.g_blurShaderResourceView
                      (displaySize img.resource.Width img.resource.Height avail)]) := by
  unfold showImage
  cases himg : s.g_loadedImageSRV with
  | none => rfl
  | some img =>
    cases hn : s.needsUpdate with
    | false => simp [Op.seq, hn, himg]
    | true =>
      cases hctx : s.g_pd3dDeviceContext with
      | none =>
        simp [Op.seq, Op.chain, hn, himg, ClearRenderTargetView, Op.ctx, hctx]
      | some d =>
        simp only [Op.seq, Op.chain, hn, himg, ClearRenderTargetView, Op.ctx, hctx, id,
          ApplyGaussianBlur_eq, Option.isSome_some, and_self, if_true, Op.skip]
        cases htex : s.g_tempTexture <;> cases hbuf : s.g_blurSettingsBuffer <;>
          simp [blurResult, blurLog, blurContext, horizontalDraw, verticalDraw, htex.symm,
            himg.symm]

theorem showImage_surf {avail : ℚ × ℚ} {s s' : Renderer} {l : List Call}
    (h : showImage avail s = some (s', l)) : surf s' = surf s := by
  rw [showImage_eq] at h
  split at h
  · simp only [Option.some.injEq, Prod.mk.injEq] at h
    obtain ⟨rfl, -⟩ := h
    rfl
  · split at h
    · split at h
      · simp only [Option.some.injEq, Prod.mk.injEq] at h
        obtain ⟨rfl, -⟩ := h
        rfl
      · simp at h
    · simp only [Option.some.injEq, Prod.mk.injEq] at h
      obtain ⟨rfl, -⟩ := h
      rfl

/-! ## The invariant along the main loop -/

theorem good_keepsInv {op : Op} (h : Good op) : KeepsInv op :=
  fun s s' l hs => (h s s' l hs).2.2

theorem keepsInv_seq {a b : Op} (ha : KeepsInv a) (hb : KeepsInv b) : KeepsInv (Op.seq a b) := by
  intro s s' l h hi
  obtain ⟨s1, l1, l2, h1, h2, -⟩ := Op.seq_eq_some.mp h
  exact hb _ _ _ h2 (ha _ _ _ h1 hi)

theorem keepsInv_chain {ops : List Op} (h : ∀ op ∈ ops, KeepsInv op) :
    KeepsInv (Op.chain ops) := by
  induction ops with
  | nil => exact good_keepsInv (boring_good boring_skip)
  | cons a rest ih =>
    rw [Op.chain_cons]
    exact keepsInv_seq (h a (List.mem_cons_self a rest))
      (ih (fun op hop => h op (List.mem_cons_of_mem a hop)))

theorem keepsInv_checkSlider : KeepsInv checkSlider := by
  intro s s' l h
  rw [checkSlider_eq] at h
  simp only [Option.some.injEq, Prod.mk.injEq] at h
  obtain ⟨rfl, -⟩ := h
  split
  · exact inv_of_bump rfl rfl (le_refl _)
  · exact id

theorem keepsInv_openImageHandler (o : Option OpenResult) : KeepsInv (openImageHandler o) := by
  intro s s' l h
  unfold openImageHandler at h
  split at h
  · simp only [Option.some.injEq, Prod.mk.injEq] at h
    obtain ⟨rfl, -⟩ := h
    exact id
  · simp only [Option.some.injEq, Prod.mk.injEq] at h
    obtain ⟨rfl, -⟩ := h
    exact inv_of_bump rfl rfl (le_refl _)
  · simp only [Option.some.injEq, Prod.mk.injEq] at h
    obtain ⟨rfl, -⟩ := h
    exact inv_of_bump rfl rfl (le_refl _)
  · split at h
    · simp at h
    · simp only [Option.some.injEq, Prod.mk.injEq] at h
      obtain ⟨rfl, -⟩ := h
      exact inv_of_bump rfl rfl (Nat.le_succ _)

theorem keepsInv_showImage (avail : ℚ × ℚ) : KeepsInv (showImage avail) :=
  fun _ _ _ h => inv_of_surf_eq (showImage_surf h)

theorem keepsInv_sliderFloat (v : Option ℚ) : KeepsInv (sliderFloat v) := by
  intro s s' l h
  unfold sliderFloat at h
  split at h <;>
    (simp only [Option.some.injEq, Prod.mk.injEq] at h
     obtain ⟨rfl, -⟩ := h
     exact inv_of_bump rfl rfl (le_refl _))

theorem keepsInv_beforeDecision (inp : FrameInput) : KeepsInv (beforeDecision inp) := by
  refine keepsInv_chain ?_
  intro op hop
  simp only [List.mem_cons, List.mem_singleton, List.not_mem_nil, or_false] at hop
  rcases hop with rfl | rfl | rfl | rfl
  · exact keepsInv_checkSlider
  · exact good_keepsInv (good_call rfl)
  · exact good_keepsInv (good_showAdapterPicker _ _)
  · exact keepsInv_openImageHandler _

theorem keepsInv_frame (inp : FrameInput) : KeepsInv (frame inp) := by
  refine keepsInv_chain ?_
  intro op hop
  simp only [List.mem_cons, List.mem_singleton, List.not_mem_nil, or_false] at hop
  rcases hop with rfl | rfl | rfl | rfl
  · exact keepsInv_beforeDecision _
  · exact keepsInv_showImage _
  · exact keepsInv_sliderFloat _
  · exact good_keepsInv (boring_good boring_present)

theorem keepsInv_step (e : Event) : KeepsInv (step e) := by
  cases e with
  | message imguiHandled msg hr => exact good_keepsInv (good_wndProc _ _ _)
  | frame inp => exact keepsInv_frame inp

theorem keepsInv_run (evs : List Event) : KeepsInv (run evs) := by
  induction evs with
  | nil => exact good_keepsInv (boring_good boring_skip)
  | cons e rest ih => exact keepsInv_seq (keepsInv_step e) ih

theorem atBlurDecision_inv {s : Renderer} (h : AtBlurDecision s) : Inv s := by
  obtain ⟨n, hr, evs, inp, l, h⟩ := h
  refine keepsInv_chain ?_ _ _ _ h (inv_initial n)
  intro op hop
  simp only [List.mem_cons, List.mem_singleton, List.not_mem_nil, or_false] at hop
  rcases hop with rfl | rfl | rfl
  · exact good_keepsInv (good_startup hr)
  · exact keepsInv_run evs
  · exact keepsInv_beforeDecision inp

/-! ## The controller along a frame -/

theorem openImageHandler_ctrl {o : Option OpenResult} {s s' : Renderer} {l : List Call}
    (h : openImageHandler o s = some (s', l)) :
    s'.g_blurRadius = s.g_blurRadius ∧ s'.oldBlurRadius = s.oldBlurRadius ∧
    s'.needsUpdate = (s.needsUpdate || o.isSome) ∧
    s'.g_loadedImageSRV.isSome = imageAfter o s.g_loadedImageSRV.isSome ∧
    (o = none ∨ o = some OpenResult.cancelled → s'.g_loadedImageSRV = s.g_loadedImageSRV) ∧
    blurCount l = 0 := by
  unfold openImageHandler at h
  split at h
  · simp only [Option.some.injEq, Prod.mk.injEq] at h
    obtain ⟨rfl, rfl⟩ := h
    simp [imageAfter, blurCount_nil]
  · simp only [Option.some.injEq, Prod.mk.injEq] at h
    obtain ⟨rfl, rfl⟩ := h
    simp [imageAfter, blurCount_nil]
  · simp only [Option.some.injEq, Prod.mk.injEq] at h
    obtain ⟨rfl, rfl⟩ := h
    simp [imageAfter, blurCount_append, blurCount_cons, blurCount_nil, blurCount_releaseOld,
      Call.isBlur]
  · split at h
    · simp at h
    · simp only [Option.some.injEq, Prod.mk.injEq] at h
      obtain ⟨rfl, rfl⟩ := h
      simp [imageAfter, blurCount_append, blurCount_cons, blurCount_nil, blurCount_releaseOld,
        Call.isBlur]

theorem beforeDecision_ctrl {inp : FrameInput} {s s1 : Renderer} {l : List Call}
    (h : beforeDecision inp s = some (s1, l)) :
    s1.g_blurRadius = s.g_blurRadius ∧
    s1.oldBlurRadius =
      (if radiusChanged s.g_blurRadius s.oldBlurRadius then s.g_blurRadius
       else s.oldBlurRadius) ∧
    s1.needsUpdate = (controllerOf s).dirtyAt inp ∧
    s1.g_loadedImageSRV.isSome = imageAfter inp.openImage s.g_loadedImageSRV.isSome ∧
    (inp.openImage = none ∨ inp.openImage = some OpenResult.cancelled →
      s1.g_loadedImageSRV = s.g_loadedImageSRV) ∧
    blurCount l = 0 := by
  simp only [beforeDecision, Op.chain_cons, Op.seq_eq_some] at h
  obtain ⟨sa, la, _, ha, ⟨sb, lb, _, hb, ⟨sc, lc, _, hc, ⟨sd, ld, _, hd, hnil, rfl⟩, rfl⟩,
    rfl⟩, rfl⟩ := h
  rw [Op.chain_nil] at hnil
  simp only [Option.some.injEq, Prod.mk.injEq] at hnil
  obtain ⟨rfl, rfl⟩ := hnil
  simp only [Op.call, Option.some.injEq, Prod.mk.injEq] at hb
  obtain ⟨rfl, rfl⟩ := hb
  obtain ⟨cc, bc, -⟩ := good_showAdapterPicker _ _ _ _ _ hc
  simp only [ctrl, Prod.mk.injEq] at cc
  obtain ⟨cg, co, cn, ci⟩ := cc
  obtain ⟨dg, dold, dn, di, dsame, db⟩ := openImageHandler_ctrl hd
  rw [checkSlider_eq] at ha
  simp only [Option.some.injEq, Prod.mk.injEq] at ha
  obtain ⟨hsa, rfl⟩ := ha
  have hl : blurCount ([] ++ ([Call.ImGuiNewFrame] ++ (lc ++ (ld ++ [])))) = 0 := by
    simp [blurCount_append, blurCount_cons, blurCount_nil, bc, db, Call.isBlur]
  rw [dg, dold, dn, di, cg, co, cn, ci]
  by_cases hch : |s.g_blurRadius - s.oldBlurRadius| > 1 / 10000
  · rw [if_pos hch] at hsa
    subst hsa
    refine ⟨rfl, ?_, ?_, rfl, ?_, hl⟩
    · simp only [radiusChanged, if_pos hch]
    · simp only [Controller.dirtyAt, controllerOf, radiusChanged, hch, decide_True,
        Bool.or_true, Bool.true_or]
    · intro ho
      rw [dsame ho, ci]
  · rw [if_neg hch] at hsa
    subst hsa
    refine ⟨rfl, ?_, ?_, rfl, ?_, hl⟩
    · simp only [radiusChanged, if_neg hch]
    · simp only [Controller.dirtyAt, controllerOf, radiusChanged, hch, decide_False,
        Bool.or_false]
    · intro ho
      rw [dsame ho, ci]

theorem showImage_ctrl {avail : ℚ × ℚ} {s s' : Renderer} {l : List Call}
    (h : showImage avail s = some (s', l)) :
    s'.g_blurRadius = s.g_blurRadius ∧ s'.oldBlurRadius = s.oldBlurRadius ∧
    s'.g_loadedImageSRV = s.g_loadedImageSRV ∧
    s'.needsUpdate = (s.needsUpdate && !s.g_loadedImageSRV.isSome) ∧
    blurCount l = (if s.needsUpdate = true ∧ s.g_loadedImageSRV.isSome then 1 else 0) ∧
    blurRadii l = (if s.needsUpdate = true ∧ s.g_loadedImageSRV.isSome then [s.g_blurRadius]
                   else []) := by
  rw [showImage_eq] at h
  split at h
  · rename_i himg
    simp only [Option.some.injEq, Prod.mk.injEq] at h
    obtain ⟨rfl, rfl⟩ := h
    simp [himg, blurCount_nil, blurRadii]
  · rename_i img himg
    split at h
    · rename_i hn
      split at h
      · simp only [Option.some.injEq, Prod.mk.injEq] at h
        obtain ⟨rfl, rfl⟩ := h
        simp [himg, hn, blurResult, blurCount_append, blurCount_cons, blurCount_nil,
          blurCount_blurLog, Call.isBlur, blurRadii, blurLog]
      · simp at h
    · rename_i hn
      simp only [Option.some.injEq, Prod.mk.injEq] at h
      obtain ⟨rfl, rfl⟩ := h
      simp [himg, hn, blurCount_cons, blurCount_nil, Call.isBlur, blurRadii]

theorem sliderFloat_eq (v : Option ℚ) (s : Renderer) :
    sliderFloat v s = some ({ s with g_blurRadius := v.getD s.g_blurRadius }, []) := by
  cases v <;> rfl

theorem frame_ctrl {inp : FrameInput} {s s' : Renderer} {l : List Call}
    (h : frame inp s = some (s', l)) :
    s'.g_blurRadius = inp.slider.getD s.g_blurRadius ∧
    s'.oldBlurRadius =
      (if radiusChanged s.g_blurRadius s.oldBlurRadius then s.g_blurRadius
       else s.oldBlurRadius) ∧
    s'.needsUpdate =
      ((controllerOf s).dirtyAt inp && !imageAfter inp.openImage s.g_loadedImageSRV.isSome) ∧
    s'.g_loadedImageSRV.isSome = imageAfter inp.openImage s.g_loadedImageSRV.isSome ∧
    blurCount l =
      (if (controllerOf s).dirtyAt inp = true ∧
          imageAfter inp.openImage s.g_loadedImageSRV.isSome = true then 1 else 0) := by
  simp only [frame, Op.chain_cons, Op.seq_eq_some] at h
  obtain ⟨s1, l1, _, h1, ⟨s2, l2, _, h2, ⟨s3, l3, _, h3, ⟨s4, l4, _, h4, hnil, rfl⟩, rfl⟩,
    rfl⟩, rfl⟩ := h
  rw [Op.chain_nil] at hnil
  simp only [Option.some.injEq, Prod.mk.injEq] at hnil
  obtain ⟨rfl, rfl⟩ := hnil
  obtain ⟨ag, ao, an, ai, -, ab⟩ := beforeDecision_ctrl h1
  obtain ⟨bg, bo, bi, bn, bb, -⟩ := showImage_ctrl h2
  rw [sliderFloat_eq] at h3
  simp only [Option.some.injEq, Prod.mk.injEq] at h3
  obtain ⟨rfl, rfl⟩ := h3
  obtain ⟨pc, -, pb⟩ := boring_present _ _ _ h4
  simp only [ctrl, Prod.mk.injEq] at pc
  obtain ⟨pg, po, pn, pi⟩ := pc
  rw [pg, po, pn, pi]
  refine ⟨by rw [bg, ag], by rw [bo, ao], by rw [bn, an, ai], by rw [bi, ai], ?_⟩
  simp only [blurCount_append, blurCount_nil, ab, bb, pb, an, ai, Nat.add_zero, Nat.zero_add]

theorem frame_blurCount_le_one {inp : FrameInput} {s s' : Renderer} {l : List Call}
    (h : frame inp s = some (s', l)) : blurCount l ≤ 1 := by
  rw [(frame_ctrl h).2.2.2.2]
  split <;> omega

theorem imageAfter_onlyLoads {inp : FrameInput} (h : inp.OnlyLoads) :
    imageAfter inp.openImage true = true := by
  rcases h with h | ⟨w, hh, h⟩ <;> rw [h] <;> rfl

theorem run_ctrl (evs : List Event) :
    ∀ s : Renderer, s.g_loadedImageSRV.isSome = true →
      (∀ inp, Event.frame inp ∈ evs → inp.OnlyLoads) →
      ∀ s' log, run evs s = some (s', log) →
        blurCount log = detectedBlurs (controllerOf s) evs ∧
        controllerOf s' = (controllerOf s).after evs ∧
        s'.g_loadedImageSRV.isSome = true := by
  induction evs with
  | nil =>
    intro s himg _ s' log h
    simp only [run, Op.skip, Option.some.injEq, Prod.mk.injEq] at h
    obtain ⟨rfl, rfl⟩ := h
    exact ⟨rfl, rfl, himg⟩
  | cons e rest ih =>
    intro s himg hev s' log h
    simp only [run, Op.seq_eq_some] at h
    obtain ⟨s1, l1, l2, h1, h2, rfl⟩ := h
    have hrest : ∀ inp, Event.frame inp ∈ rest → inp.OnlyLoads :=
      fun inp hin => hev inp (List.mem_cons_of_mem _ hin)
    cases e with
    | message imguiHandled msg hr =>
      obtain ⟨hc, hb, -⟩ := good_wndProc imguiHandled msg hr _ _ _ h1
      simp only [ctrl, Prod.mk.injEq] at hc
      obtain ⟨cg, co, cn, ci⟩ := hc
      have hctl : controllerOf s1 = controllerOf s := by
        simp only [controllerOf, cg, co, cn]
      obtain ⟨r1, r2, r3⟩ := ih s1 (by rw [ci]; exact himg) hrest s' l2 h2
      refine ⟨?_, ?_, r3⟩
      · rw [blurCount_append, hb, r1, hctl]
        simp [detectedBlurs]
      · rw [r2, hctl]
        rfl
    | frame inp =>
      have hin : inp.OnlyLoads := hev inp (List.mem_cons_self _ _)
      obtain ⟨fg, fo, fn, fi, fb⟩ := frame_ctrl h1
      rw [himg, imageAfter_onlyLoads hin] at fi fn fb
      have hctl : controllerOf s1 = (controllerOf s).next inp := by
        simp only [controllerOf, Controller.next, fg, fo, fn, Bool.not_true, Bool.and_false]
      obtain ⟨r1, r2, r3⟩ := ih s1 fi hrest s' l2 h2
      refine ⟨?_, ?_, r3⟩
      · rw [blurCount_append, fb, r1, hctl]
        simp [detectedBlurs]
      · rw [r2, hctl]
        rfl

/-! ## Frames and messages do not crash on `Ready` globals -/

theorem total_seq {a b : Op} (ha : Total a) (hb : Total b) : Total (Op.seq a b) := by
  intro s hs
  obtain ⟨s1, l1, h1, r1⟩ := ha s hs
  obtain ⟨s2, l2, h2, r2⟩ := hb s1 r1
  exact ⟨s2, l1 ++ l2, Op.seq_of_some h1 h2, r2⟩

theorem total_skip : Total Op.skip := fun s hs => ⟨s, [], rfl, hs⟩

theorem total_chain {ops : List Op} (h : ∀ op ∈ ops, Total op) : Total (Op.chain ops) := by
  induction ops with
  | nil => exact total_skip
  | cons a rest ih =>
    rw [Op.chain_cons]
    exact total_seq (h a (List.mem_cons_self a rest))
      (ih (fun op hop => h op (List.mem_cons_of_mem a hop)))

theorem total_call (c : Call) : Total (Op.call c) := fun s hs => ⟨s, [c], rfl, hs⟩

theorem total_ctx (f : DeviceContext → DeviceContext) (c : Call) : Total (Op.ctx f c) := by
  intro s hs
  obtain ⟨h1, h2, h3, h4, h5, h6⟩ := hs
  obtain ⟨d, hd⟩ := Option.isSome_iff_exists.mp h2
  simp only [Op.ctx, hd]
  exact ⟨_, _, rfl, h1, rfl, h3, h4, h5, h6⟩

theorem total_cleanupRenderTarget : Total CleanupRenderTarget := by
  intro s hs
  unfold CleanupRenderTarget
  split
  · exact ⟨_, _, rfl, hs⟩
  · exact ⟨_, _, rfl, hs⟩

theorem total_resizeBuffers (width height : Nat) (hr : Bool) :
    Total (ResizeBuffers width height hr) := by
  intro s hs
  obtain ⟨h1, h2, h3, h4, h5, h6⟩ := hs
  obtain ⟨c, hc⟩ := Option.isSome_iff_exists.mp h3
  simp only [ResizeBuffers, hc]
  cases hr
  · exact ⟨_, _, rfl, h1, h2, h3, h4, h5, h6⟩
  · exact ⟨_, _, rfl, h1, h2, rfl, h4, h5, h6⟩

theorem total_createRenderTarget (hr : Bool) : Total (CreateRenderTarget hr) := by
  intro s hs
  obtain ⟨h1, h2, h3, h4, h5, h6⟩ := hs
  obtain ⟨c, hc⟩ := Option.isSome_iff_exists.mp h3
  obtain ⟨d, hd⟩ := Option.isSome_iff_exists.mp h1
  simp only [CreateRenderTarget, hc, hd]
  exact ⟨_, _, rfl, rfl, h2, rfl, h4, h5, h6⟩

theorem total_createBlurRenderTarget (width height : Nat) (hr : SurfaceHr) :
    Total (CreateBlurRenderTarget width height hr) := by
  intro s hs
  obtain ⟨h1, h2, h3, h4, h5, h6⟩ := hs
  obtain ⟨d, hd⟩ := Option.isSome_iff_exists.mp h1
  simp only [CreateBlurRenderTarget, hd]
  exact ⟨_, _, rfl, rfl, h2, h3, h4, h5, h6⟩

theorem total_wndProc (imguiHandled : Bool) (msg : Msg) (hr : ResizeHr) :
    Total (WndProc imguiHandled msg hr) := by
  unfold WndProc
  split
  · exact total_skip
  · cases msg with
    | WM_SIZE wParam lParam =>
      intro s hs
      dsimp only
      unfold onSize
      split
      · refine total_chain ?_ s hs
        intro op hop
        simp only [List.mem_cons, List.mem_singleton, List.not_mem_nil, or_false] at hop
        rcases hop with rfl | rfl | rfl | rfl | rfl
        · exact total_cleanupRenderTarget
        · exact total_resizeBuffers _ _ _
        · exact total_createRenderTarget _
        · exact total_createBlurRenderTarget _ _ _
        · exact total_ctx _ _
      · exact ⟨s, [], rfl, hs⟩
    | WM_DESTROY => exact total_call _
    | other => exact total_call _

theorem total_checkSlider : Total checkSlider := by
  intro s hs
  refine ⟨_, _, checkSlider_eq s, ?_⟩
  split
  · exact hs
  · exact hs

theorem total_showAdapterPicker (selectAdapter : Option Nat) :
    Total (ShowAdapterPicker selectAdapter none) := by
  intro s hs
  obtain ⟨h1, h2, h3, h4, h5, h6⟩ := hs
  cases selectAdapter with
  | none =>
    simp only [ShowAdapterPicker, h6, if_true]
    exact ⟨s, [], rfl, h1, h2, h3, h4, h5, h6⟩
  | some i =>
    by_cases hi : i < s.adapters
    · simp only [ShowAdapterPicker, h6, hi, if_true]
      exact ⟨_, [], rfl, h1, h2, h3, h4, h5, hi⟩
    · simp only [ShowAdapterPicker, h6, hi, if_true, if_false]
      exact ⟨s, [], rfl, h1, h2, h3, h4, h5, h6⟩

theorem total_openImageHandler (o : Option OpenResult) : Total (openImageHandler o) := by
  intro s hs
  obtain ⟨h1, h2, h3, h4, h5, h6⟩ := hs
  obtain ⟨d, hd⟩ := Option.isSome_iff_exists.mp h1
  cases o with
  | none => exact ⟨s, [], rfl, h1, h2, h3, h4, h5, h6⟩
  | some r =>
    cases r with
    | cancelled => exact ⟨_, _, rfl, h1, h2, h3, h4, h5, h6⟩
    | failed => exact ⟨_, _, rfl, h1, h2, h3, h4, h5, h6⟩
    | loaded width height =>
      simp only [openImageHandler, hd]
      exact ⟨_, _, rfl, rfl, h2, h3, h4, h5, h6⟩

theorem total_showImage (avail : ℚ × ℚ) : Total (showImage avail) := by
  intro s hs
  obtain ⟨h1, h2, h3, h4, h5, h6⟩ := hs
  obtain ⟨d, hd⟩ := Option.isSome_iff_exists.mp h2
  obtain ⟨t, ht⟩ := Option.isSome_iff_exists.mp h4
  obtain ⟨b, hb⟩ := Option.isSome_iff_exists.mp h5
  rw [showImage_eq]
  split
  · exact ⟨s, [], rfl, h1, h2, h3, h4, h5, h6⟩
  · split
    · simp only [hd, ht, hb]
      exact ⟨_, _, rfl, h1, rfl, h3, h4, rfl, h6⟩
    · exact ⟨s, _, rfl, h1, h2, h3, h4, h5, h6⟩

theorem total_sliderFloat (v : Option ℚ) : Total (sliderFloat v) := by
  intro s hs
  exact ⟨_, _, sliderFloat_eq v s, hs⟩

theorem total_present : Total present := by
  intro s hs
  obtain ⟨c, hc⟩ := Option.isSome_iff_exists.mp hs.2.2.1
  unfold present
  simp only [hc]
  refine total_chain ?_ s hs
  intro op hop
  simp only [List.mem_cons, List.mem_singleton, List.not_mem_nil, or_false] at hop
  rcases hop with rfl | rfl | rfl | rfl
  · exact total_ctx _ _
  · exact total_ctx _ _
  · exact total_call _
  · exact total_call _

theorem total_beforeDecision (inp : FrameInput) (h : inp.useThisGPU = none) :
    Total (beforeDecision inp) := by
  refine total_chain ?_
  intro op hop
  simp only [List.mem_cons, List.mem_singleton, List.not_mem_nil, or_false] at hop
  rcases hop with rfl | rfl | rfl | rfl
  · exact total_checkSlider
  · exact total_call _
  · rw [h]
    exact total_showAdapterPicker _
  · exact total_openImageHandler _

theorem total_frame (inp : FrameInput) (h : inp.useThisGPU = none) : Total (frame inp) := by
  refine total_chain ?_
  intro op hop
  simp only [List.mem_cons, List.mem_singleton, List.not_mem_nil, or_false] at hop
  rcases hop with rfl | rfl | rfl | rfl
  · exact total_beforeDecision inp h
  · exact total_showImage _
  · exact total_sliderFloat _
  · exact total_present

theorem total_run (evs : List Event)
    (h : ∀ inp, Event.frame inp ∈ evs → inp.useThisGPU = none) : Total (run evs) := by
  induction evs with
  | nil => exact total_skip
  | cons e rest ih =>
    refine total_seq ?_ (ih (fun inp hin => h inp (List.mem_cons_of_mem _ hin)))
    cases e with
    | message imguiHandled msg hr => exact total_wndProc _ _ _
    | frame inp => exact total_frame inp (h inp (List.mem_cons_self _ _))

/-! ## Resizing and re-initialisation -/

/-- C1 (the code at the failing input): after a start-up at 1280 x 720, a `WM_SIZE` message for
640 x 480 (not minimized, every call succeeding) leaves the back buffer and the blur-output
surface at 640 x 480 but the horizontal-intermediate surface at 1280 x 720: the `WM_SIZE`
branch recreates the blur surface and never calls `CreateTempRenderTarget`. -/
theorem wm_size_keeps_intermediate_surface_size :
    sizesAfter started = some (some (1280, 720), some (1280, 720), some (1280, 720)) ∧
    sizesAfter (andThen started (resizeTo 640 480))
      = some (some (640, 480), some (640, 480), some (1280, 720)) := by
  decide!

/-- C7 (the code at the failing input): start-up, a resize of the output from 1280 x 720 to
640 x 480, then a frame that loads an image and so blurs.  The horizontal draw renders into the
1280 x 720 intermediate texture; the vertical draw renders into the 640 x 480 blur-output
texture with the viewport 1280 x 720 and the texel size (1/1280, 1/720) of the intermediate
texture. -/
theorem blur_after_resize_uses_old_size :
    (andThen (andThen started (resizeTo 640 480)) (frame (loadFrame 4 4))).map
        (fun p => (draws p.2).map DrawState.geometry)
      = some [ { targetSize := some (1280, 720), viewportSize := some (1280, 720),
                 texelSize := some (1 / 1280, 1 / 720) },
               { targetSize := some (640, 480), viewportSize := some (1280, 720),
                 texelSize := some (1 / 1280, 1 / 720) } ] := by
  decide!

/-- C9 (counterexample): a `WM_SIZE` message with width and height zero that does not report a
minimized window (`wParam = 0`) is not a no-op.  After start-up the handler releases the
back-buffer view, calls `ResizeBuffers`, recreates the blur surface and sets a 0 x 0 viewport;
when the texture cannot be created at that size the blur-output surface is gone. -/
theorem zero_size_resize_is_handled :
    (andThen started (WndProc false (Msg.WM_SIZE 0 0) ResizeHr.noTexture)).map Prod.snd
      = some [ Call.Release Ptr.g_mainRenderTargetView,
               Call.ResizeBuffers 0 0,
               Call.GetBuffer,
               Call.CreateRenderTargetView (some { id := 4, Width := 0, Height := 0 }),
               Call.Release Ptr.pBackBuffer,
               Call.Release Ptr.g_blurRenderTargetTexture,
               Call.CreateTexture2D 0 0,
               Call.OutputDebugString DebugText.failedBlurTexture,
               Call.Release Ptr.g_blurRenderTargetView,
               Call.CreateRenderTargetView none,
               Call.OutputDebugString DebugText.failedBlurRTV,
               Call.Release Ptr.g_blurShaderResourceView,
               Call.CreateShaderResourceView none,
               Call.OutputDebugString DebugText.blurSRVNull,
               Call.RSSetViewports (viewportOf 0 0) ] ∧
    sizesAfter started = some (some (1280, 720), some (1280, 720), some (1280, 720)) ∧
    sizesAfter (andThen started (WndProc false (Msg.WM_SIZE 0 0) ResizeHr.noTexture))
      = some (some (0, 0), none, some (1280, 720)) := by
  decide!

/-- C9 (amended): a `WM_SIZE` message that reports a minimized window is a no-op, whatever its
size and whatever the globals: the handler makes no call and leaves the globals unchanged. -/
theorem minimized_resize_is_noop (imguiHandled : Bool) (lParam : Nat) (hr : ResizeHr)
    (s : Renderer) :
    WndProc imguiHandled (Msg.WM_SIZE SIZE_MINIMIZED lParam) hr s = some (s, []) := by
  cases imguiHandled <;> simp [WndProc, onSize, Op.skip]

/-- C10 (counterexample): with the output resized to 640 x 480 before the adapter switch,
`ReinitDeviceAndPipeline` rebuilds swap chain, blur-output surface and intermediate surface at
1280 x 720, not at 640 x 480. -/
theorem reinit_ignores_previous_size :
    sizesAfter (andThen started (resizeTo 640 480))
      = some (some (640, 480), some (640, 480), some (1280, 720)) ∧
    sizesAfter (andThen (andThen started (resizeTo 640 480))
        (ReinitDeviceAndPipeline ReinitHr.ok))
      = some (some (1280, 720), some (1280, 720), some (1280, 720)) := by
  decide!

/-- C10 (amended): whatever the globals (and so the output size) before the adapter switch,
with a valid adapter selected and every call succeeding `ReinitDeviceAndPipeline` returns with
a new device on the selected adapter, a fresh context, and swap chain, blur-output surface and
intermediate surface all at the fixed size 1280 x 720. -/
theorem reinit_rebuilds_at_1280x720 (s : Renderer)
    (h : s.selectedAdapterIndex < s.adapters) :
    ∃ s' l, ReinitDeviceAndPipeline ReinitHr.ok s = some (s', l) ∧
      s'.g_pd3dDevice = some ⟨s.selectedAdapterIndex⟩ ∧
      s'.g_pd3dDeviceContext = some DeviceContext.fresh ∧
      surfaceSizes s' = (some (1280, 720), some (1280, 720), some (1280, 720)) := by
  cases s
  rename_i dev ctx sc main rad vs ps il vb samp sel ads sd buf btex brtv bsrv ttex trtv tsrv hps
    vps old needs img nid
  dsimp only at h
  cases main <;>
  simp [ReinitDeviceAndPipeline, InitD3D, Op.chain, Op.seq, Op.call, Op.skip, CleanupD3D,
    CleanupRenderTarget, createDeviceAndSwapChain, h, ReinitHr.ok, InitHr.ok, SurfaceHr.ok,
    LoadFullscreenShaders, CreateFullscreenTriangle, CreateSamplerState, LoadBlurShader,
    CreateRenderTarget, CreateBlurRenderTarget, CreateBlurSettingsBuffer, CreateTempRenderTarget,
    newTexture, newRTV, newSRV, surfaceSizes, backBufferSize, blurSurfaceSize, tempSurfaceSize,
    Texture2D.size]

/-- C10 (witness): the amended statement at the globals a start-up and a resize to 640 x 480
leave. -/
theorem reinit_rebuilds_at_1280x720_witness :
    (stateOf (andThen started (resizeTo 640 480))).selectedAdapterIndex
        < (stateOf (andThen started (resizeTo 640 480))).adapters ∧
    ∃ s' l, ReinitDeviceAndPipeline ReinitHr.ok (stateOf (andThen started (resizeTo 640 480)))
        = some (s', l) ∧
      s'.g_pd3dDevice
        = some ⟨(stateOf (andThen started (resizeTo 640 480))).selectedAdapterIndex⟩ ∧
      s'.g_pd3dDeviceContext = some DeviceContext.fresh ∧
      surfaceSizes s' = (some (1280, 720), some (1280, 720), some (1280, 720)) :=
  ⟨by decide!, reinit_rebuilds_at_1280x720 _ (by decide!)⟩

/-! ## The two passes -/

/-- C6: at every point where the main loop can invoke the blur (start-up, any messages and
frames, then a frame up to the blur decision), `ApplyGaussianBlur` called on
`g_blurRenderTargetView` with a source view that is not a view of the intermediate texture
issues exactly two draws: the horizontal one reads the source view and writes `g_tempRTV`, the
vertical one reads `g_tempSRV` and writes `g_blurRenderTargetView`; in neither are render target
and shader input views of the same texture.  (That the source differs from the destination is
not needed.) -/
theorem blur_passes_never_read_their_target (s : Renderer) (hs : AtBlurDecision s)
    (inputSRV : Option ShaderResourceView) (blurRadius : ℚ)
    (hsrc : ∀ i t, inputSRV = some i → s.g_tempRTV = some t → i.resource.id ≠ t.resource.id)
    (s' : Renderer) (l : List Call)
    (h : ApplyGaussianBlur inputSRV s.g_blurRenderTargetView blurRadius s = some (s', l)) :
    ∃ d1 d2, draws l = [d1, d2] ∧
      d1.input = inputSRV ∧ d1.target = s.g_tempRTV ∧ d1.pixelShader = s.g_blurHorizontalPS ∧
      d2.input = s.g_tempSRV ∧ d2.target = s.g_blurRenderTargetView ∧
      d2.pixelShader = s.g_blurVerticalPS ∧
      ¬ d1.Hazard ∧ ¬ d2.Hazard := by
  rw [ApplyGaussianBlur_eq] at h
  split at h
  · rename_i d t b hd ht hb
    simp only [Option.some.injEq, Prod.mk.injEq] at h
    obtain ⟨-, rfl⟩ := h
    refine ⟨_, _, draws_blurLog _ _ _ _ _, rfl, rfl, rfl, rfl, rfl, rfl, ?_, ?_⟩
    · rintro ⟨t1, i1, ht1, hi1, hid⟩
      exact hsrc i1 t1 hi1 ht1 hid.symm
    · rintro ⟨t1, i1, ht1, hi1, hid⟩
      exact (atBlurDecision_inv hs).2.2 t1 i1 ht1 hi1 hid
  · simp at h

/-- C8: with a device context, an intermediate texture and a settings buffer (without any of
them the call crashes), `ApplyGaussianBlur` returns, and a second call with the same source
view, destination view and radius on the globals the first call left makes the same calls with
the same arguments and leaves the globals exactly as the first call left them. -/
theorem applyGaussianBlur_twice (s : Renderer) (inputSRV : Option ShaderResourceView)
    (outputRTV : Option RenderTargetView) (blurRadius : ℚ)
    (hctx : s.g_pd3dDeviceContext.isSome) (htex : s.g_tempTexture.isSome)
    (hbuf : s.g_blurSettingsBuffer.isSome) :
    ∃ s1 l, ApplyGaussianBlur inputSRV outputRTV blurRadius s = some (s1, l) ∧
      ApplyGaussianBlur inputSRV outputRTV blurRadius s1 = some (s1, l) := by
  obtain ⟨d, hd⟩ := Option.isSome_iff_exists.mp hctx
  obtain ⟨t, ht⟩ := Option.isSome_iff_exists.mp htex
  obtain ⟨b, hb⟩ := Option.isSome_iff_exists.mp hbuf
  refine ⟨blurResult s outputRTV blurRadius t, blurLog s inputSRV outputRTV blurRadius t, ?_, ?_⟩
  · rw [ApplyGaussianBlur_eq, hd, ht, hb]
  · rw [ApplyGaussianBlur_eq]
    simp [blurResult, ht, blurLog, blurContext, horizontalDraw, verticalDraw]

theorem firstDecision_atBlurDecision : AtBlurDecision firstDecision :=
  ⟨1, StartHr.ok, [], loadFrame 4 4,
    logOf (Op.chain [startup StartHr.ok, run [], beforeDecision (loadFrame 4 4)]
      (Renderer.initial 1)), by decide!⟩

/-- C6 (witness): the first frame after start-up loads a 4 x 4 image; at its blur decision the
source view is on texture 4, the intermediate surface on texture 3, and the blur runs. -/
theorem blur_passes_never_read_their_target_witness :
    AtBlurDecision firstDecision ∧
    (∀ i t, firstDecision.g_loadedImageSRV = some i → firstDecision.g_tempRTV = some t →
      i.resource.id ≠ t.resource.id) ∧
    ApplyGaussianBlur firstDecision.g_loadedImageSRV firstDecision.g_blurRenderTargetView 5
        firstDecision
      = some (blurResult firstDecision firstDecision.g_blurRenderTargetView 5
                { id := 3, Width := 1280, Height := 720 },
              blurLog firstDecision firstDecision.g_loadedImageSRV
                firstDecision.g_blurRenderTargetView 5
                { id := 3, Width := 1280, Height := 720 }) ∧
    ∃ d1 d2,
      draws (blurLog firstDecision firstDecision.g_loadedImageSRV
                firstDecision.g_blurRenderTargetView 5
                { id := 3, Width := 1280, Height := 720 }) = [d1, d2] ∧
      d1.input = firstDecision.g_loadedImageSRV ∧ d1.target = firstDecision.g_tempRTV ∧
      d1.pixelShader = firstDecision.g_blurHorizontalPS ∧
      d2.input = firstDecision.g_tempSRV ∧ d2.target = firstDecision.g_blurRenderTargetView ∧
      d2.pixelShader = firstDecision.g_blurVerticalPS ∧
      ¬ d1.Hazard ∧ ¬ d2.Hazard :=
  have hsrc : ∀ i t, firstDecision.g_loadedImageSRV = some i →
      firstDecision.g_tempRTV = some t → i.resource.id ≠ t.resource.id := by
    intro i t hi ht
    have h1 : firstDecision.g_loadedImageSRV = some ⟨{ id := 4, Width := 4, Height := 4 }⟩ := by
      decide!
    have h2 : firstDecision.g_tempRTV = some ⟨{ id := 3, Width := 1280, Height := 720 }⟩ := by
      decide!
    rw [h1] at hi
    rw [h2] at ht
    cases hi
    cases ht
    decide
  have hrun : ApplyGaussianBlur firstDecision.g_loadedImageSRV
        firstDecision.g_blurRenderTargetView 5 firstDecision
      = some (blurResult firstDecision firstDecision.g_blurRenderTargetView 5
                { id := 3, Width := 1280, Height := 720 },
              blurLog firstDecision firstDecision.g_loadedImageSRV
                firstDecision.g_blurRenderTargetView 5
                { id := 3, Width := 1280, Height := 720 }) := by
    decide!
  ⟨firstDecision_atBlurDecision, hsrc, hrun,
    blur_passes_never_read_their_target firstDecision firstDecision_atBlurDecision
      firstDecision.g_loadedImageSRV 5 hsrc _ _ hrun⟩

/-- C8 (witness): the globals after start-up have a context, an intermediate texture and a
settings buffer. -/
theorem applyGaussianBlur_twice_witness :
    (stateOf started).g_pd3dDeviceContext.isSome ∧
    (stateOf started).g_tempTexture.isSome ∧
    (stateOf started).g_blurSettingsBuffer.isSome ∧
    ∃ s1 l,
      ApplyGaussianBlur (some ⟨{ id := 4, Width := 4, Height := 4 }⟩)
          (stateOf started).g_blurRenderTargetView 5 (stateOf started) = some (s1, l) ∧
      ApplyGaussianBlur (some ⟨{ id := 4, Width := 4, Height := 4 }⟩)
          (stateOf started).g_blurRenderTargetView 5 s1 = some (s1, l) :=
  ⟨by decide!, by decide!, by decide!,
    applyGaussianBlur_twice (stateOf started) (some ⟨{ id := 4, Width := 4, Height := 4 }⟩)
      (stateOf started).g_blurRenderTargetView 5 (by decide!) (by decide!) (by decide!)⟩

/-! ## The recompute controller -/

theorem good_run_messages (msgs : List Event)
    (h : ∀ e ∈ msgs, ∃ i m r, e = Event.message i m r) : Good (run msgs) := by
  induction msgs with
  | nil => exact boring_good boring_skip
  | cons e rest ih =>
    obtain ⟨i, m, r, rfl⟩ := h e (List.mem_cons_self _ _)
    exact good_seq (good_wndProc i m r) (ih (fun e he => h e (List.mem_cons_of_mem _ he)))

theorem abs_le_after_check (g old : ℚ) :
    |g - (if radiusChanged g old then g else old)| ≤ 1 / 10000 := by
  by_cases h : radiusChanged g old
  · rw [if_pos h, sub_self, abs_zero]
    norm_num
  · rw [if_neg h]
    exact not_lt.mp h

theorem recorded_after_blur {c : Controller} {inp : FrameInput}
    (hd : c.dirtyAt inp = true)
    (hnow : (!c.dirtyAt inp || decide (radiusChanged c.radius c.recorded)
              || decide (c.radius = c.recorded)) = true) :
    (c.next inp).recorded = c.radius := by
  by_cases hch : radiusChanged c.radius c.recorded
  · simp only [Controller.next, if_pos hch]
  · simp only [hd, Bool.not_true, Bool.false_or, hch, decide_False, decide_eq_true_eq] at hnow
    simp only [Controller.next, if_neg hch]
    exact hnow.symm

theorem detectedBlurs_eq_specBlurs (evs : List Event) :
    ∀ (c : Controller) (b : Option ℚ), (c.dirty = true ∨ b = some c.recorded) →
      noDrift c evs = true →
      detectedBlurs c evs
        = specBlurs { radius := c.radius, blurred := b, dirty := c.dirty } evs := by
  induction evs with
  | nil =>
    intro c b _ _
    rfl
  | cons e rest ih =>
    intro c b hJ hnd
    cases e with
    | message imguiHandled msg hr =>
      simp only [noDrift] at hnd
      simp only [detectedBlurs, specBlurs]
      exact ih c b hJ hnd
    | frame inp =>
      simp only [noDrift, Bool.and_eq_true] at hnd
      obtain ⟨hnow, hrest⟩ := hnd
      have hstep : ∀ b' : Option ℚ, b' = some (c.next inp).recorded →
          detectedBlurs (c.next inp) rest
            = specBlurs { radius := inp.slider.getD c.radius, blurred := b', dirty := false }
                rest := by
        intro b' hb'
        exact ih (c.next inp) b' (Or.inr hb') hrest
      have hdirty : SpecController.dirtyAt
            { radius := c.radius, blurred := b, dirty := c.dirty } inp = c.dirtyAt inp := by
        rcases hJ with hdt | hb
        · simp only [SpecController.dirtyAt, Controller.dirtyAt, hdt, Bool.true_or]
        · subst hb
          rfl
      simp only [detectedBlurs, specBlurs, SpecController.next, hdirty]
      cases hd : c.dirtyAt inp with
      | true =>
        simp only [if_true]
        rw [hstep (some c.radius) (by rw [recorded_after_blur hd hnow])]
      | false =>
        have hdt : c.dirty = false := by
          cases hc : c.dirty
          · rfl
          · simp [Controller.dirtyAt, hc] at hd
        have hch : ¬ radiusChanged c.radius c.recorded := by
          intro hch
          simp [Controller.dirtyAt, hch] at hd
        have hb : b = some c.recorded := by
          rcases hJ with h | h
          · rw [hdt] at h
            exact absurd h (by decide)
          · exact h
        simp only [Bool.false_eq_true, if_false]
        rw [hstep b (by rw [hb]; simp only [Controller.next, if_neg hch])]

/-- C2 (counterexample): on `loadedState` (an image loaded and blurred at radius 5, the slider
at 5) the slider goes to 5.00009 (less than 1e-4 from the recorded 5: no blur), an image is
loaded (one blur, passed 5.00009, the recorded radius staying 5) and the slider goes to 4.99995,
then two frames pass without input.  The slider is now 1.4e-4 from the radius of the blur on
display, a radius change in the spec's words, and no frame blurs it: the session has one blur
where the spec prescribes two. -/
theorem drifted_radius_is_never_blurred :
    loadedState.g_loadedImageSRV.isSome = true ∧
    controllerOf loadedState = { radius := 5, recorded := 5, dirty := false } ∧
    viewOf (run driftEvents loadedState)
      = some { blurred := [500009 / 100000], radius := 499995 / 100000, recorded := 5,
               dirty := false } ∧
    radiusChanged (499995 / 100000) (500009 / 100000) ∧
    (run driftEvents loadedState).map (fun p => blurCount p.2) = some 1 ∧
    detectedBlurs (controllerOf loadedState) driftEvents = 1 ∧
    specBlurs { radius := 5, blurred := some 5, dirty := false } driftEvents = 2 ∧
    noDrift (controllerOf loadedState) driftEvents = false := by
  decide!

/-- C2 (amended): with a source image loaded and every "Open Image" press loading an image, for
every sequence of messages and frames: (1) if the main loop gets through the sequence, the
number of `ApplyGaussianBlur` invocations is the number of frames at whose blur decision the
controller is dirty, a radius change being one the slider check detects (the slider more than
1e-4 from `oldBlurRadius`), one invocation for each such frame, also when radius change and
image load fall in the same frame, and nothing is pending after a frame; (2) this is the number
the spec prescribes, with radius changes measured against the last blurred radius `b`, when the
controller starts dirty or with `oldBlurRadius = b` and no frame blurs with the slider off
`oldBlurRadius` by an undetected amount (`noDrift`); (3) no frame, in any state, invokes the
blur more than once; (4) on `Ready` globals and without adapter switches the main loop does get
through. -/
theorem blur_once_per_run_of_changes (s : Renderer) (evs : List Event)
    (himg : s.g_loadedImageSRV.isSome = true)
    (hev : ∀ inp, Event.frame inp ∈ evs → inp.OnlyLoads) :
    (∀ s' log, run evs s = some (s', log) →
        blurCount log = detectedBlurs (controllerOf s) evs ∧
        controllerOf s' = (controllerOf s).after evs) ∧
    (∀ b : Option ℚ, (s.needsUpdate = true ∨ b = some s.oldBlurRadius) →
        noDrift (controllerOf s) evs = true →
        ∀ s' log, run evs s = some (s', log) →
          blurCount log
            = specBlurs { radius := s.g_blurRadius, blurred := b, dirty := s.needsUpdate }
                evs) ∧
    (∀ inp s0 s1 l, frame inp s0 = some (s1, l) → blurCount l ≤ 1) ∧
    (Ready s → (∀ inp, Event.frame inp ∈ evs → inp.useThisGPU = none) →
        ∃ s' log, run evs s = some (s', log)) := by
  refine ⟨?_, ?_, ?_, ?_⟩
  · intro s' log h
    obtain ⟨r1, r2, -⟩ := run_ctrl evs s himg hev s' log h
    exact ⟨r1, r2⟩
  · intro b hJ hnd s' log h
    obtain ⟨r1, -, -⟩ := run_ctrl evs s himg hev s' log h
    rw [r1]
    exact detectedBlurs_eq_specBlurs evs (controllerOf s) b hJ hnd
  · intro inp s0 s1 l h
    exact frame_blurCount_le_one h
  · intro hs hno
    obtain ⟨s', log, h, -⟩ := total_run evs hno s hs
    exact ⟨s', log, h⟩

/-- C2 (witness): the sample session on `loadedState`, which has no undetected drift.  The
controller detects two changes (the slider at 7, and the frame in which the slider at 9 is seen
and an image is loaded), the spec prescribes two blurs, and the main loop makes two. -/
theorem blur_once_per_run_of_changes_witness :
    loadedState.g_loadedImageSRV.isSome = true ∧
    (∀ inp, Event.frame inp ∈ sampleEvents → inp.OnlyLoads) ∧
    noDrift (controllerOf loadedState) sampleEvents = true ∧
    detectedBlurs (controllerOf loadedState) sampleEvents = 2 ∧
    specBlurs { radius := 5, blurred := some 5, dirty := false } sampleEvents = 2 ∧
    (run sampleEvents loadedState).map (fun p => blurCount p.2) = some 2 ∧
    ((∀ s' log, run sampleEvents loadedState = some (s', log) →
        blurCount log = detectedBlurs (controllerOf loadedState) sampleEvents ∧
        controllerOf s' = (controllerOf loadedState).after sampleEvents) ∧
    (∀ b : Option ℚ,
        (loadedState.needsUpdate = true ∨ b = some loadedState.oldBlurRadius) →
        noDrift (controllerOf loadedState) sampleEvents = true →
        ∀ s' log, run sampleEvents loadedState = some (s', log) →
          blurCount log
            = specBlurs { radius := loadedState.g_blurRadius, blurred := b,
                          dirty := loadedState.needsUpdate } sampleEvents) ∧
    (∀ inp s0 s1 l, frame inp s0 = some (s1, l) → blurCount l ≤ 1) ∧
    (Ready loadedState →
        (∀ inp, Event.frame inp ∈ sampleEvents → inp.useThisGPU = none) →
        ∃ s' log, run sampleEvents loadedState = some (s', log))) :=
  have hev : ∀ inp, Event.frame inp ∈ sampleEvents → inp.OnlyLoads := by
    intro inp hin
    simp only [sampleEvents, List.mem_cons, Event.frame.injEq, List.mem_singleton,
      List.not_mem_nil, or_false, reduceCtorEq, false_or] at hin
    rcases hin with rfl | rfl | rfl | rfl | rfl | rfl
    · exact Or.inl rfl
    · exact Or.inl rfl
    · exact Or.inl rfl
    · exact Or.inl rfl
    · exact Or.inr ⟨8, 8, rfl⟩
    · exact Or.inl rfl
  ⟨by decide!, hev, by decide!, by decide!, by decide!, by decide!,
    blur_once_per_run_of_changes loadedState sampleEvents (by decide!) hev⟩

/-- C3 (counterexample): in the first frame after start-up no image is loaded; at the blur
decision `needsUpdate` is set, yet the frame does not invoke `ApplyGaussianBlur`, and the flag
stays set. -/
theorem dirty_without_image_does_not_blur :
    (andThen started (beforeDecision FrameInput.idle)).map
        (fun p => (p.1.needsUpdate, p.1.g_loadedImageSRV)) = some (true, none) ∧
    (andThen (andThen started (beforeDecision FrameInput.idle))
        (showImage FrameInput.idle.avail)).map
        (fun p => (blurCount p.2, p.1.needsUpdate)) = some (0, true) ∧
    (andThen started (frame FrameInput.idle)).map
        (fun p => (blurCount p.2, p.1.needsUpdate)) = some (0, true) := by
  decide!

/-- C3 (amended): in every frame, (1) `ApplyGaussianBlur` is invoked (once) if and only if, at
the blur decision, `needsUpdate` is set and a source image is loaded; it is never invoked twice;
and after the invocation `needsUpdate` is clear and the radius is within 1e-4 of the recorded
one, so that no cause is left set; with no image loaded nothing is blurred and the flag stays as
it is; (2) on `Ready` globals and without an adapter switch the frame does reach the decision
and gets through the image block. -/
theorem blur_iff_dirty_and_image_loaded (inp : FrameInput) (s : Renderer) :
    (∀ s1 l1 s2 l2, beforeDecision inp s = some (s1, l1) →
      showImage inp.avail s1 = some (s2, l2) →
      (blurCount l2 = 1 ↔ s1.needsUpdate = true ∧ s1.g_loadedImageSRV.isSome = true) ∧
      (blurCount l2 = 0 ∨ blurCount l2 = 1) ∧
      (blurCount l2 = 1 →
        s2.needsUpdate = false ∧ ¬ radiusChanged s2.g_blurRadius s2.oldBlurRadius) ∧
      (s1.g_loadedImageSRV.isSome = false →
        blurCount l2 = 0 ∧ s2.needsUpdate = s1.needsUpdate)) ∧
    (Ready s → inp.useThisGPU = none →
      ∃ s1 l1 s2 l2, beforeDecision inp s = some (s1, l1) ∧
        showImage inp.avail s1 = some (s2, l2)) := by
  refine ⟨?_, ?_⟩
  · intro s1 l1 s2 l2 h1 h2
    obtain ⟨ag, ao, -, -, -, -⟩ := beforeDecision_ctrl h1
    obtain ⟨bg, bo, -, bn, bb, -⟩ := showImage_ctrl h2
    have hle : ¬ radiusChanged s2.g_blurRadius s2.oldBlurRadius := by
      rw [bg, bo, ag, ao]
      exact not_lt.mpr (abs_le_after_check _ _)
    by_cases hc : s1.needsUpdate = true ∧ s1.g_loadedImageSRV.isSome = true
    · rw [if_pos hc] at bb
      refine ⟨⟨fun _ => hc, fun _ => bb⟩, Or.inr bb, fun _ => ⟨?_, hle⟩, fun hn => ?_⟩
      · rw [bn, hc.1, hc.2]
        rfl
      · rw [hc.2] at hn
        exact absurd hn (by decide)
    · rw [if_neg hc] at bb
      refine ⟨⟨fun h => ?_, fun h => absurd h hc⟩, Or.inl bb, fun h => ?_, fun hn => ⟨bb, ?_⟩⟩
      · rw [bb] at h
        exact absurd h (by decide)
      · rw [bb] at h
        exact absurd h (by decide)
      · rw [bn, hn, Bool.not_false, Bool.and_true]
  · intro hs hno
    obtain ⟨s1, l1, h1, r1⟩ := total_beforeDecision inp hno s hs
    obtain ⟨s2, l2, h2, -⟩ := total_showImage inp.avail s1 r1
    exact ⟨s1, l1, s2, l2, h1, h2⟩

/-- C3 (witness): the first frame after start-up, loading a 4 x 4 image: the flag is set, the
image is loaded, and the blur runs once. -/
theorem blur_iff_dirty_and_image_loaded_witness :
    Ready (stateOf started) ∧
    firstDecisionResult = some (stateOf firstDecisionResult, logOf firstDecisionResult) ∧
    firstBlurResult = some (stateOf firstBlurResult, logOf firstBlurResult) ∧
    (stateOf firstDecisionResult).needsUpdate = true ∧
    (stateOf firstDecisionResult).g_loadedImageSRV.isSome = true ∧
    blurCount (logOf firstBlurResult) = 1 ∧
    ((blurCount (logOf firstBlurResult) = 1 ↔
        (stateOf firstDecisionResult).needsUpdate = true ∧
        (stateOf firstDecisionResult).g_loadedImageSRV.isSome = true) ∧
      (blurCount (logOf firstBlurResult) = 0 ∨ blurCount (logOf firstBlurResult) = 1) ∧
      (blurCount (logOf firstBlurResult) = 1 →
        (stateOf firstBlurResult).needsUpdate = false ∧
        ¬ radiusChanged (stateOf firstBlurResult).g_blurRadius
            (stateOf firstBlurResult).oldBlurRadius) ∧
      ((stateOf firstDecisionResult).g_loadedImageSRV.isSome = false →
        blurCount (logOf firstBlurResult) = 0 ∧
        (stateOf firstBlurResult).needsUpdate = (stateOf firstDecisionResult).needsUpdate)) ∧
    (∃ s1 l1 s2 l2, beforeDecision (loadFrame 4 4) (stateOf started) = some (s1, l1) ∧
      showImage (loadFrame 4 4).avail s1 = some (s2, l2)) :=
  have hr : Ready (stateOf started) := by
    refine ⟨?_, ?_, ?_, ?_, ?_, ?_⟩ <;> decide!
  have h1 : firstDecisionResult
      = some (stateOf firstDecisionResult, logOf firstDecisionResult) := by decide!
  have h2 : firstBlurResult = some (stateOf firstBlurResult, logOf firstBlurResult) := by
    decide!
  ⟨hr, h1, h2, by decide!, by decide!, by decide!,
    (blur_iff_dirty_and_image_loaded (loadFrame 4 4) (stateOf started)).1
      (stateOf firstDecisionResult) (logOf firstDecisionResult)
      (stateOf firstBlurResult) (logOf firstBlurResult) h1 h2,
    (blur_iff_dirty_and_image_loaded (loadFrame 4 4) (stateOf started)).2 hr rfl⟩

/-- C4 (counterexample): (1) two frames after start-up each load an image; the slider goes to
5.00005 in the first and to 5.00012 in the second.  The second blur is passed the radius 5.00005
but the recorded radius stays 5.  (2) In the next frame, without input, the controller goes
dirty although the radius 5.00012 is within 1e-4 of the radius 5.00005 that the most recent
blur applied and no image is loaded.  (3) From the clean state after a first blur, pressing
"Open Image" and cancelling the dialog makes the controller dirty with the same image. -/
theorem recorded_radius_is_not_applied_radius :
    viewOf (andThen started
        (run [Event.frame (loadAndSlide (100001 / 20000)),
              Event.frame (loadAndSlide (125003 / 25000))]))
      = some { blurred := [5, 100001 / 20000], radius := 125003 / 25000, recorded := 5,
               dirty := false } ∧
    viewOf (andThen (andThen started
          (run [Event.frame (loadAndSlide (100001 / 20000)),
                Event.frame (loadAndSlide (125003 / 25000))]))
        (beforeDecision FrameInput.idle))
      = some { blurred := [], radius := 125003 / 25000, recorded := 125003 / 25000,
               dirty := true } ∧
    ¬ radiusChanged (125003 / 25000) (100001 / 20000) ∧
    viewOf (andThen started (frame (loadFrame 4 4)))
      = some { blurred := [5], radius := 5, recorded := 5, dirty := false } ∧
    viewOf (beforeDecision cancelFrame loadedState)
      = some { blurred := [], radius := 5, recorded := 5, dirty := true } ∧
    (stateOf (beforeDecision cancelFrame loadedState)).g_loadedImageSRV
      = loadedState.g_loadedImageSRV := by
  decide!

/-- C4 (amended): in every frame, (1) a controller that is clean when the frame starts is dirty
at the blur decision exactly when the slider value differs by more than 1e-4 from
`oldBlurRadius` (the slider value recorded at the last detected change) or "Open Image" was
pressed in this frame; (2) a blur invoked in the frame is passed the slider value, and
afterwards `oldBlurRadius` is within 1e-4 of that radius, and equal to it when the frame
detected a radius change. -/
theorem dirty_transition_and_recorded_radius (inp : FrameInput) (s s1 : Renderer)
    (l1 : List Call) (h1 : beforeDecision inp s = some (s1, l1)) :
    (s.needsUpdate = false →
      (s1.needsUpdate = true ↔
        radiusChanged s.g_blurRadius s.oldBlurRadius ∨ inp.openImage.isSome = true)) ∧
    (∀ s2 l2, showImage inp.avail s1 = some (s2, l2) → ∀ r ∈ blurRadii l2,
      r = s.g_blurRadius ∧ |r - s2.oldBlurRadius| ≤ 1 / 10000 ∧
      (radiusChanged s.g_blurRadius s.oldBlurRadius → s2.oldBlurRadius = r)) := by
  obtain ⟨ag, ao, an, -, -, -⟩ := beforeDecision_ctrl h1
  refine ⟨?_, ?_⟩
  · intro hclean
    rw [an]
    simp only [Controller.dirtyAt, controllerOf, hclean, Bool.false_or, Bool.or_eq_true,
      decide_eq_true_eq]
  · intro s2 l2 h2 r hr
    obtain ⟨-, bo, -, -, -, br⟩ := showImage_ctrl h2
    rw [br] at hr
    split at hr
    · simp only [List.mem_singleton] at hr
      rw [hr, ag, bo, ao]
      refine ⟨rfl, abs_le_after_check _ _, fun hch => ?_⟩
      rw [if_pos hch]
    · simp at hr

/-- C4 (witness): the frame after the slider went from 5 to 7: the controller was clean, the
change is detected, the blur is passed 7 and 7 is recorded. -/
theorem dirty_transition_and_recorded_radius_witness :
    secondDecisionResult
      = some (stateOf secondDecisionResult, logOf secondDecisionResult) ∧
    viewOf (some (sliderMovedState, []))
      = some { blurred := [], radius := 7, recorded := 5, dirty := false } ∧
    viewOf (showImage FrameInput.idle.avail (stateOf secondDecisionResult))
      = some { blurred := [7], radius := 7, recorded := 7, dirty := false } ∧
    ((sliderMovedState.needsUpdate = false →
        ((stateOf secondDecisionResult).needsUpdate = true ↔
          radiusChanged sliderMovedState.g_blurRadius sliderMovedState.oldBlurRadius ∨
          FrameInput.idle.openImage.isSome = true)) ∧
      (∀ s2 l2,
        showImage FrameInput.idle.avail (stateOf secondDecisionResult) = some (s2, l2) →
        ∀ r ∈ blurRadii l2,
          r = sliderMovedState.g_blurRadius ∧ |r - s2.oldBlurRadius| ≤ 1 / 10000 ∧
          (radiusChanged sliderMovedState.g_blurRadius sliderMovedState.oldBlurRadius →
            s2.oldBlurRadius = r))) :=
  have h1 : secondDecisionResult
      = some (stateOf secondDecisionResult, logOf secondDecisionResult) := by decide!
  ⟨h1, by decide!, by decide!,
    dirty_transition_and_recorded_radius FrameInput.idle sliderMovedState
      (stateOf secondDecisionResult) (logOf secondDecisionResult) h1⟩

/-- C5: after any start-up and any messages dispatched before the first frame, whatever the
input of the first frame, `needsUpdate` is set when that frame reaches its blur decision, and
no blur has been invoked until then.  (The static initialiser of the flag is `false`; the
first slider check sets it because `g_blurRadius` starts at 5 and `oldBlurRadius` at 0.) -/
theorem first_frame_is_dirty (n : Nat) (hr : StartHr) (msgs : List Event) (s : Renderer)
    (l : List Call) (inp : FrameInput) (s1 : Renderer) (l1 : List Call)
    (hmsgs : ∀ e ∈ msgs, ∃ i m r, e = Event.message i m r)
    (hstart : Op.seq (startup hr) (run msgs) (Renderer.initial n) = some (s, l))
    (h1 : beforeDecision inp s = some (s1, l1)) :
    s1.needsUpdate = true ∧ blurCount (l ++ l1) = 0 := by
  obtain ⟨hc, hb, -⟩ := good_seq (good_startup hr) (good_run_messages msgs hmsgs) _ _ _ hstart
  simp only [ctrl, Renderer.initial, Prod.mk.injEq] at hc
  obtain ⟨cg, co, cn, -⟩ := hc
  obtain ⟨-, -, an, -, -, ab⟩ := beforeDecision_ctrl h1
  refine ⟨?_, by rw [blurCount_append, hb, ab]⟩
  rw [an]
  have hch : radiusChanged (5 : ℚ) 0 := by
    unfold radiusChanged
    norm_num
  simp only [Controller.dirtyAt, controllerOf, cg, co, hch, decide_True, Bool.or_true,
    Bool.true_or]

/-- C5 (witness): start-up, one resize message, then a first frame without input. -/
theorem first_frame_is_dirty_witness :
    (∀ e ∈ [Event.message false (Msg.WM_SIZE 0 (MAKELPARAM 640 480)) ResizeHr.ok],
      ∃ i m r, e = Event.message i m r) ∧
    startedAndResized = some (stateOf startedAndResized, logOf startedAndResized) ∧
    resizedDecisionResult
      = some (stateOf resizedDecisionResult, logOf resizedDecisionResult) ∧
    (stateOf resizedDecisionResult).needsUpdate = true ∧
    blurCount (logOf startedAndResized ++ logOf resizedDecisionResult) = 0 :=
  have hmsgs : ∀ e ∈ [Event.message false (Msg.WM_SIZE 0 (MAKELPARAM 640 480)) ResizeHr.ok],
      ∃ i m r, e = Event.message i m r := by
    intro e he
    simp only [List.mem_singleton] at he
    exact ⟨_, _, _, he⟩
  have hstart : startedAndResized
      = some (stateOf startedAndResized, logOf startedAndResized) := by decide!
  have h1 : resizedDecisionResult
      = some (stateOf resizedDecisionResult, logOf resizedDecisionResult) := by decide!
  ⟨hmsgs, hstart, h1,
    first_frame_is_dirty 1 StartHr.ok _ (stateOf startedAndResized) (logOf startedAndResized)
      FrameInput.idle (stateOf resizedDecisionResult) (logOf resizedDecisionResult)
      hmsgs hstart h1⟩

/-! ## Geometry of the fullscreen triangle and of the displayed image -/

/-- C14: `CreateFullscreenTriangle`, when the buffer is created, stores the three vertices
`verts`, and every point of the view square [-1,1] x [-1,1] lies in the triangle they span
(vertices (-1,-1), (-1,3), (3,-1)). -/
theorem fullscreen_triangle_covers_view (x y : ℚ) (hx : -1 ≤ x ∧ x ≤ 1)
    (hy : -1 ≤ y ∧ y ≤ 1) :
    (∀ s : Renderer, s.g_pd3dDevice.isSome = true →
      (CreateFullscreenTriangle true s).map (fun p => p.1.g_fullscreenVB) = some (some verts)) ∧
    verts.map (fun v => (v.x, v.y)) = [(-1, -1), (-1, 3), (3, -1)] ∧
    InTriangle verts x y := by
  refine ⟨?_, rfl, ?_⟩
  · intro s hs
    obtain ⟨d, hd⟩ := Option.isSome_iff_exists.mp hs
    simp [CreateFullscreenTriangle, hd]
  · refine ⟨(2 - x - y) / 4, (y + 1) / 4, (x + 1) / 4, ?_, ?_, ?_, ?_, ?_, ?_⟩
    · linarith [hx.2, hy.2]
    · linarith [hy.1]
    · linarith [hx.1]
    · ring
    · ring
    · ring

/-- C14 (witness): the corner (1, 1) of the view, the point of the square farthest from the
vertex (-1, -1), lies in the triangle. -/
theorem fullscreen_triangle_covers_view_witness :
    ((-1 : ℚ) ≤ 1 ∧ (1 : ℚ) ≤ 1) ∧
    ((∀ s : Renderer, s.g_pd3dDevice.isSome = true →
      (CreateFullscreenTriangle true s).map (fun p => p.1.g_fullscreenVB) = some (some verts)) ∧
    verts.map (fun v => (v.x, v.y)) = [(-1, -1), (-1, 3), (3, -1)] ∧
    InTriangle verts 1 1) :=
  ⟨by decide!, fullscreen_triangle_covers_view 1 1 (by decide!) (by decide!)⟩

theorem showImage_displays {avail : ℚ × ℚ} {s s' : Renderer} {l : List Call}
    {img : ShaderResourceView} (himg : s.g_loadedImageSRV = some img)
    (h : showImage avail s = some (s', l)) :
    Call.ImGuiImage s.g_blurShaderResourceView
      (displaySize img.resource.Width img.resource.Height avail) ∈ l := by
  rw [showImage_eq, himg] at h
  dsimp only at h
  split at h
  · split at h
    · simp only [Option.some.injEq, Prod.mk.injEq] at h
      obtain ⟨-, rfl⟩ := h
      simp
    · simp at h
  · simp only [Option.some.injEq, Prod.mk.injEq] at h
    obtain ⟨-, rfl⟩ := h
    simp

/-- C15: for an image of positive width `w` and height `h` and an available region of size
`(ax, ay)` (positive or not), the display size `(x, y)` the main loop computes satisfies
`x ≤ ax`, `y ≤ ay`, `x * h = y * w`, and `x = ax` or `y = ay`; and this size is what a frame
passes to `ImGui::Image` for a loaded image of that size. -/
theorem displaySize_fits (w h : Nat) (ax ay : ℚ) (hw : 0 < w) (hh : 0 < h) :
    ((displaySize w h (ax, ay)).1 ≤ ax ∧ (displaySize w h (ax, ay)).2 ≤ ay ∧
      (displaySize w h (ax, ay)).1 * (h : ℚ) = (displaySize w h (ax, ay)).2 * (w : ℚ) ∧
      ((displaySize w h (ax, ay)).1 = ax ∨ (displaySize w h (ax, ay)).2 = ay)) ∧
    (∀ (s s' : Renderer) (l : List Call) (img : ShaderResourceView),
      s.g_loadedImageSRV = some img → img.resource.Width = w → img.resource.Height = h →
      showImage (ax, ay) s = some (s', l) →
      Call.ImGuiImage s.g_blurShaderResourceView (displaySize w h (ax, ay)) ∈ l) := by
  have hw' : (0 : ℚ) < w := by exact_mod_cast hw
  have hh' : (0 : ℚ) < h := by exact_mod_cast hh
  have hr : (0 : ℚ) < (w : ℚ) / (h : ℚ) := div_pos hw' hh'
  refine ⟨?_, ?_⟩
  · unfold displaySize
    dsimp only
    split
    · rename_i hle
      refine ⟨le_refl _, hle, ?_, Or.inl rfl⟩
      field_simp
    · rename_i hgt
      refine ⟨?_, le_refl _, ?_, Or.inr rfl⟩
      · exact le_of_lt ((lt_div_iff₀ hr).mp (not_le.mp hgt))
      · field_simp
  · intro s s' l img himg hiw hih h
    rw [← hiw, ← hih]
    exact showImage_displays himg h

/-- C15 (witness): a 4 x 2 image in a 300 x 300 region is shown at 300 x 150. -/
theorem displaySize_fits_witness :
    0 < 4 ∧ 0 < 2 ∧
    displaySize 4 2 (300, 300) = (300, 150) ∧
    (((displaySize 4 2 (300, 300)).1 ≤ 300 ∧ (displaySize 4 2 (300, 300)).2 ≤ 300 ∧
      (displaySize 4 2 (300, 300)).1 * ((2 : Nat) : ℚ)
        = (displaySize 4 2 (300, 300)).2 * ((4 : Nat) : ℚ) ∧
      ((displaySize 4 2 (300, 300)).1 = 300 ∨ (displaySize 4 2 (300, 300)).2 = 300)) ∧
    (∀ (s s' : Renderer) (l : List Call) (img : ShaderResourceView),
      s.g_loadedImageSRV = some img → img.resource.Width = 4 → img.resource.Height = 2 →
      showImage (300, 300) s = some (s', l) →
      Call.ImGuiImage s.g_blurShaderResourceView (displaySize 4 2 (300, 300)) ∈ l)) :=
  ⟨by decide, by decide, by decide!,
    displaySize_fits 4 2 300 300 (by decide) (by decide)⟩

/-! ## Failing surface creation -/

/-- C11 (counterexample): after start-up the blur-output surface is texture 2 and the
intermediate surface texture 3, both complete.  (1) `CreateBlurRenderTarget` with a failing
`CreateTexture2D` releases the held texture before the call and leaves texture and both views
null: the previous surface is gone.  (2) With the texture created and `CreateRenderTargetView`
failing, the new texture and its sampled view are retained with a null render view.  (3), (4)
The same for `CreateTempRenderTarget`. -/
theorem failed_creation_loses_previous_surface :
    blurSurface (stateOf started)
      = { texture := some { id := 2, Width := 1280, Height := 720 },
          rtv := some ⟨{ id := 2, Width := 1280, Height := 720 }⟩,
          srv := some ⟨{ id := 2, Width := 1280, Height := 720 }⟩ } ∧
    tempSurface (stateOf started)
      = { texture := some { id := 3, Width := 1280, Height := 720 },
          rtv := some ⟨{ id := 3, Width := 1280, Height := 720 }⟩,
          srv := some ⟨{ id := 3, Width := 1280, Height := 720 }⟩ } ∧
    blurSurfaceAfter (andThen started
        (CreateBlurRenderTarget 640 480 { texture := false, rtv := true, srv := true }))
      = some ({ texture := none, rtv := none, srv := none },
              [ Call.Release Ptr.g_blurRenderTargetTexture,
                Call.CreateTexture2D 640 480,
                Call.OutputDebugString DebugText.failedBlurTexture,
                Call.Release Ptr.g_blurRenderTargetView,
                Call.CreateRenderTargetView none,
                Call.OutputDebugString DebugText.failedBlurRTV,
                Call.Release Ptr.g_blurShaderResourceView,
                Call.CreateShaderResourceView none,
                Call.OutputDebugString DebugText.blurSRVNull ]) ∧
    (blurSurfaceAfter (andThen started
        (CreateBlurRenderTarget 640 480 { texture := true, rtv := false, srv := true }))).map
        Prod.fst
      = some { texture := some { id := 4, Width := 640, Height := 480 },
               rtv := none,
               srv := some ⟨{ id := 4, Width := 640, Height := 480 }⟩ } ∧
    tempSurfaceAfter (andThen started
        (CreateTempRenderTarget 640 480 { texture := false, rtv := true, srv := true }))
      = some ({ texture := none, rtv := none, srv := none },
              [ Call.Release Ptr.g_tempTexture,
                Call.CreateTexture2D 640 480,
                Call.Release Ptr.g_tempRTV,
                Call.CreateRenderTargetView none,
                Call.Release Ptr.g_tempSRV,
                Call.CreateShaderResourceView none ]) ∧
    (tempSurfaceAfter (andThen started
        (CreateTempRenderTarget 640 480 { texture := true, rtv := true, srv := false }))).map
        Prod.fst
      = some { texture := some { id := 4, Width := 640, Height := 480 },
               rtv := some ⟨{ id := 4, Width := 640, Height := 480 }⟩,
               srv := none } := by
  decide!

theorem replacement_eq (hr : SurfaceHr) (id width height : Nat) :
    replacement hr id width height
      = { texture := newTexture hr.texture id width height,
          rtv := newRTV hr.rtv (newTexture hr.texture id width height),
          srv := newSRV hr.srv (newTexture hr.texture id width height) } := by
  obtain ⟨t, r, v⟩ := hr
  cases t <;> cases r <;> cases v <;> simp [replacement, newTexture, newRTV, newSRV]

theorem createBlurRenderTarget_some (width height : Nat) (hr : SurfaceHr) (s : Renderer)
    {d : Device} (hd : s.g_pd3dDevice = some d) :
    ∃ s' rest,
      CreateBlurRenderTarget width height hr s
        = some (s', releaseOld s.g_blurRenderTargetTexture Ptr.g_blurRenderTargetTexture
                  ++ Call.CreateTexture2D width height :: rest) ∧
      blurSurface s' = replacement hr s.nextId width height := by
  simp only [CreateBlurRenderTarget, hd, List.append_assoc, List.singleton_append]
  refine ⟨_, _, rfl, ?_⟩
  rw [replacement_eq]
  rfl

theorem createTempRenderTarget_some (width height : Nat) (hr : SurfaceHr) (s : Renderer)
    {d : Device} (hd : s.g_pd3dDevice = some d) :
    ∃ s' rest,
      CreateTempRenderTarget width height hr s
        = some (s', releaseOld s.g_tempTexture Ptr.g_tempTexture
                  ++ Call.CreateTexture2D width height :: rest) ∧
      tempSurface s' = replacement hr s.nextId width height := by
  simp only [CreateTempRenderTarget, hd, List.append_assoc, List.singleton_append]
  refine ⟨_, _, rfl, ?_⟩
  rw [replacement_eq]
  rfl

/-- C11 (amended): with a device, `CreateBlurRenderTarget` and `CreateTempRenderTarget` return,
and each first releases the texture held so far and only then calls `CreateTexture2D`.
Afterwards the three pointers hold the `replacement`: the new texture if its creation
succeeded (null otherwise), and each view if the texture and that view were created (null
otherwise).  So after a failed texture creation nothing is held, after a complete success the
complete new surface is held, and a texture held before (its identity below the allocator's
next one) is never held afterwards. -/
theorem surface_creation_releases_first (width height : Nat) (hr : SurfaceHr) (s : Renderer)
    (hdev : s.g_pd3dDevice.isSome = true) :
    (∃ s' rest,
      CreateBlurRenderTarget width height hr s
        = some (s', releaseOld s.g_blurRenderTargetTexture Ptr.g_blurRenderTargetTexture
                  ++ Call.CreateTexture2D width height :: rest) ∧
      blurSurface s' = replacement hr s.nextId width height ∧
      (hr.texture = false → blurSurface s' = { texture := none, rtv := none, srv := none }) ∧
      (∀ old, s.g_blurRenderTargetTexture = some old → old.id < s.nextId →
        s'.g_blurRenderTargetTexture ≠ some old)) ∧
    (∃ s' rest,
      CreateTempRenderTarget width height hr s
        = some (s', releaseOld s.g_tempTexture Ptr.g_tempTexture
                  ++ Call.CreateTexture2D width height :: rest) ∧
      tempSurface s' = replacement hr s.nextId width height ∧
      (hr.texture = false → tempSurface s' = { texture := none, rtv := none, srv := none }) ∧
      (∀ old, s.g_tempTexture = some old → old.id < s.nextId →
        s'.g_tempTexture ≠ some old)) := by
  obtain ⟨d, hd⟩ := Option.isSome_iff_exists.mp hdev
  have hfalse : hr.texture = false →
      replacement hr s.nextId width height = { texture := none, rtv := none, srv := none } := by
    intro h
    simp [replacement, h]
  have hold : ∀ old : Texture2D, old.id < s.nextId →
      (replacement hr s.nextId width height).texture ≠ some old := by
    intro old hlt heq
    simp only [replacement] at heq
    split at heq
    · simp only [Option.some.injEq] at heq
      subst heq
      exact absurd hlt (lt_irrefl _)
    · simp at heq
  refine ⟨?_, ?_⟩
  · obtain ⟨s', rest, h, hb⟩ := createBlurRenderTarget_some width height hr s hd
    refine ⟨s', rest, h, hb, fun hf => hb.trans (hfalse hf), fun old _ hlt heq => ?_⟩
    exact hold old hlt ((congrArg SurfaceView.texture hb).symm.trans heq)
  · obtain ⟨s', rest, h, hb⟩ := createTempRenderTarget_some width height hr s hd
    refine ⟨s', rest, h, hb, fun hf => hb.trans (hfalse hf), fun old _ hlt heq => ?_⟩
    exact hold old hlt ((congrArg SurfaceView.texture hb).symm.trans heq)

/-- C11 (witness): the globals after start-up, with a failing `CreateTexture2D`. -/
theorem surface_creation_releases_first_witness :
    (stateOf started).g_pd3dDevice.isSome = true ∧
    ((∃ s' rest,
      CreateBlurRenderTarget 640 480 { texture := false, rtv := true, srv := true }
          (stateOf started)
        = some (s', releaseOld (stateOf started).g_blurRenderTargetTexture
                      Ptr.g_blurRenderTargetTexture
                  ++ Call.CreateTexture2D 640 480 :: rest) ∧
      blurSurface s'
        = replacement { texture := false, rtv := true, srv := true }
            (stateOf started).nextId 640 480 ∧
      ((false : Bool) = false →
        blurSurface s' = { texture := none, rtv := none, srv := none }) ∧
      (∀ old, (stateOf started).g_blurRenderTargetTexture = some old →
        old.id < (stateOf started).nextId → s'.g_blurRenderTargetTexture ≠ some old)) ∧
    (∃ s' rest,
      CreateTempRenderTarget 640 480 { texture := false, rtv := true, srv := true }
          (stateOf started)
        = some (s', releaseOld (stateOf started).g_tempTexture Ptr.g_tempTexture
                  ++ Call.CreateTexture2D 640 480 :: rest) ∧
      tempSurface s'
        = replacement { texture := false, rtv := true, srv := true }
            (stateOf started).nextId 640 480 ∧
      ((false : Bool) = false →
        tempSurface s' = { texture := none, rtv := none, srv := none }) ∧
      (∀ old, (stateOf started).g_tempTexture = some old →
        old.id < (stateOf started).nextId → s'.g_tempTexture ≠ some old))) :=
  ⟨by decide!,
    surface_creation_releases_first 640 480 { texture := false, rtv := true, srv := true }
      (stateOf started) (by decide!)⟩

/-! ## Failing shader compilation -/

/-- C12 (counterexample): (1) when compiling the horizontal blur stage fails at start-up, the
diagnostic is logged and start-up goes on with both blur shaders null; the first frame that
loads an image still issues the two draws of `ApplyGaussianBlur`, with a null pixel shader.
(2) When compiling the vertical blur stage fails, `LoadBlurShader` dereferences the null
`psVerticalBlob`: start-up crashes.  (3) When compiling the vertex stage fails without an error
blob (as for a missing file), `LoadFullscreenShaders` reports nothing. -/
theorem compile_failure_does_not_skip_draws :
    (startup StartHr.failHorizontal (Renderer.initial 1)).map
        (fun p => (decide (Call.OutputDebugString DebugText.compilerDiagnostic ∈ p.2),
                   p.1.g_blurHorizontalPS, p.1.g_blurVerticalPS))
      = some (true, none, none) ∧
    (andThen (startup StartHr.failHorizontal (Renderer.initial 1)) (frame (loadFrame 4 4))).map
        (fun p => (draws p.2).map (fun d => d.pixelShader))
      = some [none, none] ∧
    startup StartHr.failVertical (Renderer.initial 1) = none ∧
    (LoadFullscreenShaders
        { InitHr.ok.fullscreen with compileVS := CompileResult.failed false }
        (Renderer.initial 1)).map Prod.snd
      = some [Call.D3DCompileFromFile Shader.VSMain] := by
  decide!

/-- C12 (amended): (1) when compiling the vertex stage fails, `LoadFullscreenShaders` returns at
once, in any state, with the globals unchanged, having logged the diagnostic text if the
compiler returned an error blob; (2) when compiling the pixel stage fails, it returns likewise
(given the device the vertex shader was created on), leaving pixel shader and input layout as
they were; (3) when compiling the horizontal blur stage fails, `LoadBlurShader` returns at once
with the globals unchanged, having logged the diagnostic text if there is an error blob, and
the failure message; (4) a diagnostic is logged exactly when there is an error blob; (5)
`ApplyGaussianBlur`, whenever it returns, has issued its two draws with whatever pixel shaders
the globals hold, null ones included: no draw is skipped. -/
theorem compile_failure_is_reported (s : Renderer) :
    (∀ hr eb, hr.compileVS = CompileResult.failed eb →
      LoadFullscreenShaders hr s
        = some (s, Call.D3DCompileFromFile Shader.VSMain :: diagnosticOf eb)) ∧
    (∀ hr eb, hr.compileVS = CompileResult.ok → hr.compilePS = CompileResult.failed eb →
      s.g_pd3dDevice.isSome = true →
      ∃ s' l, LoadFullscreenShaders hr s = some (s', l ++ diagnosticOf eb) ∧
        s'.g_fullscreenPS = s.g_fullscreenPS ∧ s'.g_inputLayout = s.g_inputLayout) ∧
    (∀ hr eb, hr.compileH = CompileResult.failed eb →
      LoadBlurShader hr s
        = some (s, Call.D3DCompileFromFile Shader.PSHorizontalBlur :: diagnosticOf eb
                    ++ [Call.OutputDebugString DebugText.failedCompileGaussianBlur])) ∧
    (∀ eb, Call.OutputDebugString DebugText.compilerDiagnostic ∈ diagnosticOf eb ↔ eb = true) ∧
    (∀ inputSRV outputRTV blurRadius s' l,
      ApplyGaussianBlur inputSRV outputRTV blurRadius s = some (s', l) →
      (draws l).map (fun d => d.pixelShader) = [s.g_blurHorizontalPS, s.g_blurVerticalPS]) := by
  refine ⟨?_, ?_, ?_, ?_, ?_⟩
  · intro hr eb h
    simp [LoadFullscreenShaders, h]
  · intro hr eb hvs hps hdev
    obtain ⟨d, hd⟩ := Option.isSome_iff_exists.mp hdev
    simp only [LoadFullscreenShaders, hvs, hps, hd]
    exact ⟨_, _, rfl, rfl, rfl⟩
  · intro hr eb h
    simp [LoadBlurShader, h]
  · intro eb
    cases eb <;> simp [diagnosticOf]
  · intro inputSRV outputRTV blurRadius s' l h
    rw [ApplyGaussianBlur_eq] at h
    split at h
    · simp only [Option.some.injEq, Prod.mk.injEq] at h
      obtain ⟨-, rfl⟩ := h
      rfl
    · simp at h

/-! ## Showing a recreated blur surface -/

/-- C13 (the code at the failing input): start-up, a frame that loads an image (and blurs into
texture 2), a resize to 640 x 480 (the blur-output surface becomes the new texture 6), then a
frame without input.  That frame does not blur, the flag being clear, and shows the view of
texture 6; the only draws of the whole session rendered into textures 3 and 2.  The same
happens in a frame that switches the adapter: it shows the view of the new texture 7 without
blurring. -/
theorem recreated_surface_is_shown_unblurred :
    shownBy (andThen (andThen (andThen started (frame (loadFrame 4 4))) (resizeTo 640 480))
        (frame FrameInput.idle))
      = some { views := [some ⟨{ id := 6, Width := 640, Height := 480 }⟩],
               blurs := 0, dirty := false } ∧
    (Op.chain [startup StartHr.ok, frame (loadFrame 4 4), resizeTo 640 480,
        frame FrameInput.idle] (Renderer.initial 1)).map (fun p => drawTargetIds p.2)
      = some [some 3, some 2] ∧
    shownBy (andThen (andThen started (frame (loadFrame 4 4))) (frame switchFrame))
      = some { views := [some ⟨{ id := 7, Width := 1280, Height := 720 }⟩],
               blurs := 0, dirty := false } := by
  decide!

end RTBlur
